import Mathlib

/-!
# ep-engine: warmup state machine and store façade

A shallow embedding of `warmup.cc` and of the parts of `ep.cc` that decide
how the store answers `set`, `add`, `unlockKey`, `deleteItem`, `restoreItem`
and how the flusher consumes one queued record.

Conventions.
* Machine integers are `Nat`/`Int`; none of the code embedded here depends
  on wrap-around.
* Classes that are declared outside these sources (`HashTable`,
  `StoredValue`, `KVStore`, `MutationLog`, `CheckpointManager`) are
  represented by the answers they give (record fields) and every mutating
  request made to them is appended to a call log carried by the state.
-/

namespace EpEngine

/-! ## warmup.cc : `WarmupState` -/

/-- The state object of the warmup task: one `int`. -/
structure WarmupState where
  state : Int
  deriving DecidableEq, Repr

namespace WarmupState

@[reducible] def Initialize : Int := 0
@[reducible] def LoadingMutationLog : Int := 1
@[reducible] def EstimateDatabaseItemCount : Int := 2
@[reducible] def KeyDump : Int := 3
@[reducible] def LoadingAccessLog : Int := 4
@[reducible] def LoadingKVPairs : Int := 5
@[reducible] def LoadingData : Int := 6
@[reducible] def Done : Int := 7

/-- The `switch` of `WarmupState::getStateDescription`. -/
def getStateDescription (st : Int) : String :=
  if st = Initialize then "initialize"
  else if st = LoadingMutationLog then "loading mutation log"
  else if st = EstimateDatabaseItemCount then "estimating database item count"
  else if st = KeyDump then "loading keys"
  else if st = LoadingAccessLog then "loading access log"
  else if st = LoadingKVPairs then "loading k/v pairs"
  else if st = LoadingData then "loading data"
  else if st = Done then "done"
  else "Illegal state"

/-- The `switch (state)` of `WarmupState::legalTransition`, `default: return false`. -/
def legalTransition (ws : WarmupState) (target : Int) : Bool :=
  if ws.state = Initialize then
    target == LoadingMutationLog
  else if ws.state = LoadingMutationLog then
    (target == LoadingAccessLog || target == EstimateDatabaseItemCount)
  else if ws.state = EstimateDatabaseItemCount then
    (target == KeyDump)
  else if ws.state = KeyDump then
    (target == LoadingKVPairs || target == LoadingAccessLog)
  else if ws.state = LoadingAccessLog then
    (target == Done || target == LoadingData)
  else if ws.state = LoadingKVPairs then
    (target == Done)
  else if ws.state = LoadingData then
    (target == Done)
  else
    false

/-- The body of `WarmupState::transition`: the pair is what the call yields
(normal return, or the `std::runtime_error` thrown) and the state object
afterwards. -/
def transition (ws : WarmupState) (target : Int) : Except String Unit × WarmupState :=
  if ws.legalTransition target then
    (Except.ok (), { ws with state := target })
  else
    (Except.error ("Illegal state transition from " ++ getStateDescription ws.state
        ++ " to " ++ toString target), ws)

end WarmupState

/-! ## warmup.cc : `Warmup` -/

/-- The fields of `Warmup` that its step handlers read or write, except the
clock readings; `stateChanges` lists the `(from, to)` pairs delivered by
`fireStateChange`, `logCommits` counts the `commit1(); commit2()` pairs sent
to the mutation log, `completed` records `store->warmupCompleted()`. -/
structure Warmup where
  state : WarmupState
  reconstructLog : Bool
  corruptMutationLog : Bool
  corruptAccessLog : Bool
  stateChanges : List (Int × Int)
  logCommits : Nat
  completed : Bool
  deriving DecidableEq, Repr

namespace Warmup

/-- `Warmup::transition`: `state.transition(to)` may throw, then `fireStateChange(old, to)`. -/
def transition (w : Warmup) (target : Int) : Except String Warmup :=
  let old := w.state.state
  match w.state.transition target with
  | (Except.ok _, st) =>
      Except.ok { w with state := st, stateChanges := w.stateChanges ++ [(old, target)] }
  | (Except.error e, _) => Except.error e

end Warmup

/-! ## ep.cc : data model

`assert` statements are debugging checks and are left out of the embedding.
Clock readings (`ep_real_time()`, `ep_current_time()`) are fields of the
store; they do not change during one operation. -/

/-- The engine status codes returned by the operations embedded here. -/
inductive ENGINE_ERROR_CODE where
  | ENGINE_SUCCESS
  | ENGINE_KEY_ENOENT
  | ENGINE_KEY_EEXISTS
  | ENGINE_ENOMEM
  | ENGINE_NOT_STORED
  | ENGINE_EWOULDBLOCK
  | ENGINE_NOT_MY_VBUCKET
  | ENGINE_TMPFAIL
  deriving DecidableEq, Repr

/-- The four vbucket states. -/
inductive vbucket_state_t where
  | vbucket_state_active
  | vbucket_state_replica
  | vbucket_state_pending
  | vbucket_state_dead
  deriving DecidableEq, Repr

/-- Outcomes of `HashTable::set` and `HashTable::unlocked_softDelete`. -/
inductive mutation_type_t where
  | NOT_FOUND
  | INVALID_CAS
  | WAS_CLEAN
  | WAS_DIRTY
  | IS_LOCKED
  | NOMEM
  | INVALID_VBUCKET
  | NEED_METADATA
  deriving DecidableEq, Repr

/-- Outcomes of `HashTable::add`. -/
inductive add_type_t where
  | ADD_SUCCESS
  | ADD_NOMEM
  | ADD_EXISTS
  | ADD_UNDEL
  deriving DecidableEq, Repr

/-- The operations a queued record can carry; `queue_op_other` stands for
every enumerator that `flushOne` sends to its `default:` label. -/
inductive queue_operation where
  | queue_op_set
  | queue_op_del
  | queue_op_flush
  | queue_op_empty
  | queue_op_commit
  | queue_op_other (n : Nat)
  deriving DecidableEq, Repr

open ENGINE_ERROR_CODE vbucket_state_t mutation_type_t add_type_t queue_operation

/-- The client-visible payload. -/
structure Item where
  key : String
  vbucketId : Nat
  cas : Nat
  seqno : Nat
  id : Int
  flags : Nat
  exptime : Nat
  value : Option String
  deriving DecidableEq, Repr

/-- A queued record. `rowId` and `seqno` are `none` when the record was
built without these constructor arguments. -/
structure QueuedItem where
  key : String
  vbucketId : Nat
  op : queue_operation
  vbucketVersion : Nat
  rowId : Option Int
  seqno : Option Nat
  deriving DecidableEq, Repr

/-- What the store's code reads from a `StoredValue`; the methods that take
a time are functions of that time. `markCleanDataAge` is the value that
`markClean` writes through its out-parameter, `ejectValue` the answer of an
`ejectValue` request. -/
structure StoredValue where
  isDeleted : Bool
  isExpired : Nat → Bool
  isTempItem : Bool
  isLocked : Nat → Bool
  isResident : Bool
  isDirty : Bool
  isPendingId : Bool
  getCas : Nat
  getSeqno : Nat
  getId : Int
  getFlags : Nat
  getExptime : Nat
  getValue : Option String
  getDataAge : Nat
  markCleanDataAge : Nat
  ejectValue : Bool

/-- The answers of a vbucket's `HashTable`. `set` yields the outcome and the
row id left in the reference argument; `afterSoftDelete` is the value as
read through the same pointer after an `unlocked_softDelete` request;
`getNumItems` is the number of items the table holds. -/
structure HashTable where
  set : Item → mutation_type_t × Int
  add : Item → add_type_t
  unlocked_find : String → Bool → Option StoredValue
  unlocked_softDelete : Option StoredValue → Nat → Option Nat → mutation_type_t
  afterSoftDelete : StoredValue → Nat → Option Nat → StoredValue
  unlocked_restoreItem : Item → queue_operation → Bool
  getNumItems : Nat

/-- A vbucket: its state, the cookies on its pending-op wait list, its hash
table, the answers of its checkpoint manager and backfill queue to a queueing
request, its per-vbucket operation counters, and the answers of
`checkpointManager.eligibleForEviction`,
`checkpointManager.getNumItemsForPersistence` and `getBackfillSize`. -/
structure VBucket where
  id : Nat
  state : vbucket_state_t
  pendingOps : List Nat
  ht : HashTable
  checkpointQueueDirty : QueuedItem → Bool
  queueBackfillItem : QueuedItem → Bool
  opsCreate : Nat
  opsUpdate : Nat
  opsDelete : Nat
  opsReject : Nat
  eligibleForEviction : String → Bool
  numItemsForPersistence : Nat
  backfillSize : Nat

/-- The closure built by `flushOneDelOrSet` around one queued record (the
reject queue and the store are passed explicitly to its methods). -/
structure PersistenceCallback where
  queuedItem : QueuedItem
  queued : Nat
  dirtied : Nat
  cas : Nat
  deriving DecidableEq, Repr

set_option maxHeartbeats 1000000 in
/-- Requests made to collaborators, in the order they are made.
`queueDirty` marks an entry into `EventuallyPersistentStore::queueDirty`,
`bgFetch` an entry into `EventuallyPersistentStore::bgFetch`,
`scheduleVBSnapshot` and `scheduleVBDeletion` entries into the store's methods
of these names, `store_setter` a call of a setter of the store that is
declared outside these sources, `warmupCompleted` a call of
`engine.warmupCompleted()`, `ht_visit_eject` a visit of a vbucket's hash table
by the emergency purge. -/
inductive Call where
  | ht_set (vbid : Nat) (itm : Item)
  | ht_add (vbid : Nat) (itm : Item)
  | ht_unlocked_del (vbid : Nat) (key : String)
  | ht_unlocked_softDelete (vbid : Nat) (key : String) (found : Bool) (cas : Nat)
      (seqno : Option Nat)
  | ht_unlocked_restoreItem (vbid : Nat) (itm : Item) (op : queue_operation)
  | sv_touch (vbid : Nat) (key : String)
  | sv_unlock (vbid : Nat) (key : String)
  | sv_markClean (vbid : Nat) (key : String)
  | sv_clearId (vbid : Nat) (key : String)
  | sv_reDirty (vbid : Nat) (key : String) (dirtied : Nat)
  | sv_setPendingId (vbid : Nat) (key : String)
  | sv_clearPendingId (vbid : Nat) (key : String)
  | invokeOnLockedStoredValue_reDirty (key : String) (vbid : Nat) (dirtied : Nat)
  | queueDirty (key : String) (vbid : Nat) (op : queue_operation) (seqno : Nat)
      (rowid : Int) (tapBackfill : Bool)
  | checkpoint_queueDirty (vbid : Nat) (qi : QueuedItem)
  | vb_queueBackfillItem (vbid : Nat) (qi : QueuedItem)
  | vb_doStatsForQueueing (vbid : Nat) (qi : QueuedItem)
  | vb_doStatsForFlushing (vbid : Nat) (qi : QueuedItem)
  | bgFetch (key : String) (vbid : Nat) (vbver : Nat) (rowid : Int) (cookie : Nat)
  | kv_set (itm : Item) (vbver : Nat) (cb : PersistenceCallback)
  | kv_del (itm : Item) (rowid : Int) (vbver : Nat) (cb : PersistenceCallback)
  | kv_begin
  | kv_commit (succeeded : Bool)
  | kv_reset
  | mlog_commit1
  | mlog_commit2
  | mlog_delItem (vbid : Nat) (key : String)
  | mlog_deleteAll (vbid : Nat)
  | sleep (seconds : Nat)
  | vb_setState (vbid : Nat) (state : vbucket_state_t)
  | notifyNotificationThread
  | scheduleVBSnapshot (highPriority : Bool)
  | scheduleVBDeletion (vbid : Nat) (vb_version : Nat)
  | checkpoint_setOpenCheckpointId (vbid : Nat) (id : Nat)
  | vbmap_setPersistenceCheckpointId (vbid : Nat) (id : Nat)
  | ht_clear (vbid : Nat)
  | checkpoint_clear (vbid : Nat) (state : vbucket_state_t)
  | vb_resetStats (vbid : Nat)
  | mlog_newItem (vbid : Nat) (key : String) (rowid : Int)
  | invokeOnLockedStoredValue_setId (key : String) (vbid : Nat) (id : Int)
  | sv_ejectValue (vbid : Nat) (key : String)
  | store_setter (name : String) (value : Nat)
  | schedule_VBucketBatchCountCallback (batchCount : Nat)
  | warmupCompleted
  | addInvalidItem (itm : Item) (vbver : Nat)
  | ht_insert (vbid : Nat) (itm : Item) (eject : Bool) (isPartial : Bool)
  | ht_visit_eject (vbid : Nat)
  deriving DecidableEq, Repr

/-- Marks of an entry into `EventuallyPersistentStore::queueDirty`. -/
def Call.isQueueDirty : Call → Bool
  | Call.queueDirty _ _ _ _ _ _ => true
  | _ => false

/-- Mutating requests to a `HashTable` (`set`, `add`, `unlocked_del`,
`unlocked_softDelete`, `unlocked_restoreItem`). -/
def Call.isHashTableWrite : Call → Bool
  | Call.ht_set _ _ => true
  | Call.ht_add _ _ => true
  | Call.ht_unlocked_del _ _ => true
  | Call.ht_unlocked_softDelete _ _ _ _ _ => true
  | Call.ht_unlocked_restoreItem _ _ _ => true
  | _ => false

/-- The `set` and `del` requests to the backing store. -/
def Call.isKVStoreWrite : Call → Bool
  | Call.kv_set _ _ _ => true
  | Call.kv_del _ _ _ _ => true
  | _ => false

/-- The `StoredValue::unlock` requests. -/
def Call.isUnlock : Call → Bool
  | Call.sv_unlock _ _ => true
  | _ => false

/-! ## The C++ type `double` -/

/-- A value of the C++ type `double`, read as IEEE 754 binary64: a finite
value `(-1)^neg * mant * 2^exp` (a zero keeps its sign), an infinity, or a
NaN. Several triples may stand for the same finite value; the operations
below depend on the value only. -/
inductive Double where
  | finite (neg : Bool) (mant : Nat) (exp : Int)
  | inf (neg : Bool)
  | nan
  deriving DecidableEq, Repr

/-- The number of halvings that bring `n` below 2, in at most `fuel` steps;
with `fuel = n` this is `⌊log2 n⌋` for `n ≥ 1`. -/
def Double.log2Fuel : Nat → Nat → Nat
  | 0, _ => 0
  | fuel + 1, n => if 2 ≤ n then Double.log2Fuel fuel (n / 2) + 1 else 0

/-- The integer `⌊log2 (num / den)⌋` for positive `num` and `den`. -/
def Double.floorLog2 (num den : Nat) : Int :=
  let e0 : Int := (Double.log2Fuel num num : Int) - (Double.log2Fuel den den : Int)
  if den * 2 ^ e0.toNat ≤ num * 2 ^ (-e0).toNat then e0 else e0 - 1

/-- Rounding of the exact value `num / den` (`den > 0`), with sign `neg`, to
binary64 in the default rounding mode (to nearest, ties to even): 53 bits of
precision, subnormal below `2^-1022` (spacing `2^-1074`), infinity from
`2^1024` on. -/
def Double.round (neg : Bool) (num den : Nat) : Double :=
  if num = 0 then Double.finite neg 0 0
  else
    let e := Double.floorLog2 num den
    let u : Int := max (e - 52) (-1074)
    let n := num * 2 ^ (-u).toNat
    let d := den * 2 ^ u.toNat
    let q := n / d
    let r := n % d
    let m := if 2 * r < d then q else if d < 2 * r then q + 1 else if q % 2 = 0 then q else q + 1
    if 971 ≤ u then
      if 2 ^ (1024 - u).toNat ≤ m then Double.inf neg else Double.finite neg m u
    else Double.finite neg m u

/-- The conversion `static_cast<double>(n)` of an unsigned integer. -/
def Double.ofNat (n : Nat) : Double := Double.round false n 1

/-- The product `a * b` of two `double`s: the exact product rounded to
binary64; `0 * inf` and every product with a NaN are NaN. -/
def Double.mul : Double → Double → Double
  | Double.nan, _ => Double.nan
  | _, Double.nan => Double.nan
  | Double.inf a, Double.inf b => Double.inf (a != b)
  | Double.inf a, Double.finite b m _ => if m = 0 then Double.nan else Double.inf (a != b)
  | Double.finite a m _, Double.inf b => if m = 0 then Double.nan else Double.inf (a != b)
  | Double.finite a m1 e1, Double.finite b m2 e2 =>
    Double.round (a != b) (m1 * m2 * 2 ^ (e1 + e2).toNat) (2 ^ (-(e1 + e2)).toNat)

/-- The integer `(-1)^neg * m`. -/
def Double.signed (neg : Bool) (m : Nat) : Int := if neg then -(m : Int) else (m : Int)

/-- The comparison `a > b` of two `double`s: false when either is a NaN,
otherwise the order of the values (`-0` and `+0` are equal). -/
def Double.gt : Double → Double → Bool
  | Double.nan, _ => false
  | _, Double.nan => false
  | Double.inf a, Double.inf b => !a && b
  | Double.inf a, Double.finite _ _ _ => !a
  | Double.finite _ _ _, Double.inf b => b
  | Double.finite a m1 e1, Double.finite b m2 e2 =>
    decide (Double.signed b m2 * 2 ^ (e2 - min e1 e2).toNat <
      Double.signed a m1 * 2 ^ (e1 - min e1 e2).toNat)

/-- The rational number that a finite `double` stands for (`0` for an
infinity or a NaN, which stand for none). -/
def Double.toRat : Double → ℚ
  | Double.finite neg m e => (Double.signed neg m : ℚ) * (2 : ℚ) ^ e
  | _ => 0

/-- The statistics read or written by the embedded code. Counters that are
decremented or compared with an `int` are integers. `totalMemoryUsed` is the
answer of `getTotalMemoryUsed()`, `maxDataSize` of `getMaxDataSize()`; the
two caps of warmup are `double`s. -/
structure EPStats where
  numNotMyVBuckets : Nat
  expired : Nat
  queue_size : Nat
  totalEnqueued : Nat
  flusher_todo : Int
  memOverhead : Int
  flushExpired : Nat
  flushFailed : Nat
  tooOld : Nat
  tooYoung : Nat
  min_data_age : Int
  queue_age_cap : Int
  dirtyAge : Int
  dataAge : Int
  dirtyAgeHighWat : Int
  dataAgeHighWat : Int
  totalPersisted : Nat
  delItems : Nat
  commitFailed : Nat
  flusherCommits : Nat
  newItems : Nat
  numReplicaEjects : Nat
  totalMemoryUsed : Nat
  mem_low_wat : Nat
  beginFailed : Nat
  flusherPreempts : Nat
  warmOOM : Nat
  warmDups : Nat
  warmedUp : Nat
  warmedUpMeta : Nat
  maxDataSize : Nat
  warmupMemUsedCap : Double
  warmupNumReadCap : Double
  deriving DecidableEq, Repr

/-- The flusher's transaction bookkeeping. -/
structure TransactionContext where
  intxn : Bool
  _remaining : Int
  txnSize : Int
  transactionCallbacks : List PersistenceCallback
  uncommittedItems : List QueuedItem
  numUncommittedItems : Nat
  deriving DecidableEq, Repr

/-- The batches of online restore: the set `itemsDeleted` and the map `items`
from a vbucket id to its batch (`none`: no entry for that id). -/
structure Restore where
  itemsDeleted : List String
  items : Nat → Option (List QueuedItem)

/-- The settings of the mutation-log compactor held by the store. -/
structure MutationLogCompactorConfig where
  maxLogSize : Nat
  maxEntryRatio : Nat
  queueCap : Nat
  sleepTime : Nat
  deriving DecidableEq, Repr

/-- The store together with the answers of its collaborators.
* `vbuckets`, `bucketVersions`, `vbucketIds`, `highPrioritySnapshot`: the
  `VBucketMap` (`getBucket`, `getBucketVersion`, `getBuckets`,
  `isHighPriorityVbSnapshotScheduled`);
* `degradedMode`: `engine.isDegradedMode()`;
* `kvBegin n`: the answer of the `n`-th `begin()` of the backing store,
  `kvCommitFailures n`: how many `commit()` attempts fail before the `n`-th
  commit goes through;
* `queuedTimeOf`: `QueuedItem::getQueuedTime`, `sizeofQueuedItem`:
  `sizeof(queued_item)`;
* `backend`: `engine.getConfiguration().getBackend()`, `vbucketsSize`:
  `vbuckets.getSize()`, `mlogCompactorConfig`: the member of that name;
* `shouldPreemptFlush`: the answer of the method of that name, which is
  declared outside these sources, as a function of its argument;
* `calls`: the requests made so far. -/
structure Store where
  vbuckets : Nat → Option VBucket
  bucketVersions : Nat → Nat
  vbucketIds : List Nat
  highPrioritySnapshot : Bool
  doPersistence : Bool
  degradedMode : Bool
  diskFlushAll : Bool
  realTime : Nat
  currentTime : Nat
  itemExpiryWindow : Nat
  restore : Restore
  stats : EPStats
  tctx : TransactionContext
  kvBegin : Nat → Bool
  kvBegins : Nat
  kvCommitFailures : Nat → Nat
  kvCommits : Nat
  queuedTimeOf : QueuedItem → Nat
  sizeofQueuedItem : Nat
  backend : String
  vbucketsSize : Nat
  mlogCompactorConfig : MutationLogCompactorConfig
  shouldPreemptFlush : Nat → Bool
  calls : List Call

/-- What stops an operation short of returning. -/
inductive Fault where
  /-- A member of a null `RCPtr<VBucket>` was accessed. -/
  | nullVBucket
  /-- `front()` was taken of an empty queue. -/
  | emptyQueue
  /-- An iterator equal to `end()` was dereferenced. -/
  | endOfRangeList
  /-- `abort()` was called. -/
  | abort
  deriving DecidableEq, Repr

namespace Store

/-- Append one request to the call log. -/
def log (s : Store) (c : Call) : Store :=
  { s with calls := s.calls ++ [c] }

/-- Replace the vbucket object stored under `vbid`. -/
def putVB (s : Store) (vbid : Nat) (vb : VBucket) : Store :=
  { s with vbuckets := fun i => if i = vbid then some vb else s.vbuckets i }

/-- `++stats.numNotMyVBuckets`. -/
def incrNumNotMyVBuckets (s : Store) : Store :=
  { s with stats := { s.stats with numNotMyVBuckets := s.stats.numNotMyVBuckets + 1 } }

/-- The entries of the call log that mark an entry into `queueDirty`. -/
def queueDirtyCalls (s : Store) : List Call :=
  s.calls.filter Call.isQueueDirty

/-- The entries of the call log that are mutating requests to a `HashTable`. -/
def hashTableCalls (s : Store) : List Call :=
  s.calls.filter Call.isHashTableWrite

/-- The entries of the call log that are `set` or `del` requests to the
backing store. -/
def kvStoreWrites (s : Store) : List Call :=
  s.calls.filter Call.isKVStoreWrite

/-- The entries of the call log that are `StoredValue::unlock` requests. -/
def unlockCalls (s : Store) : List Call :=
  s.calls.filter Call.isUnlock

end Store

/-! ## ep.cc : operations -/

/-- Modelled from the spec: `VBucket::addPendingOp` is declared outside these
sources. "When a vbucket is `pending`, operations register the caller cookie":
on a pending vbucket the cookie is appended to the wait list and the answer
is `true`; otherwise nothing is registered and the answer is `false`. -/
def VBucket.addPendingOp (vb : VBucket) (cookie : Nat) : Bool × VBucket :=
  if vb.state = vbucket_state_pending then
    (true, { vb with pendingOps := vb.pendingOps ++ [cookie] })
  else (false, vb)

/-- Modelled from the spec: the default of the `wantDeleted` argument of
`fetchValidValue`, given in a declaration outside these sources;
`find(key, wantDeleted)` is asked for tombstones only by callers that pass
`true`. -/
def fetchValidValue_wantDeleted_default : Bool := false

/-- Modelled from the spec: the default of the `tapBackfill` argument of
`queueDirty`, given in a declaration outside these sources; mutations go to
the checkpoint manager, and only TAP backfill passes `true`. -/
def queueDirty_tapBackfill_default : Bool := false

/-- `EventuallyPersistentStore::getVBucket(uint16_t)`. -/
def getVBucket (s : Store) (vbucket : Nat) : Option VBucket :=
  s.vbuckets vbucket

/-- `EventuallyPersistentStore::getVBucket(uint16_t, vbucket_state_t)`. -/
def getVBucketInState (s : Store) (vbid : Nat) (wanted_state : vbucket_state_t) :
    Option VBucket :=
  let vb := s.vbuckets vbid
  let found_state : vbucket_state_t := match vb with
    | some b => b.state
    | none => vbucket_state_dead
  if found_state = wanted_state then vb else none

/-- `EventuallyPersistentStore::queueDirty`. -/
def queueDirty (s : Store) (key : String) (vbid : Nat) (op : queue_operation)
    (seqno : Nat) (rowid : Int) (tapBackfill : Bool) : Store :=
  let s0 := s.log (Call.queueDirty key vbid op seqno rowid tapBackfill)
  if s0.doPersistence then
    match s0.vbuckets vbid with
    | some vb =>
      let itm : QueuedItem :=
        { key := key, vbucketId := vbid, op := op, vbucketVersion := s0.bucketVersions vbid,
          rowId := some rowid, seqno := some seqno }
      let rv : Bool := if tapBackfill then vb.queueBackfillItem itm
        else vb.checkpointQueueDirty itm
      let s1 := s0.log (if tapBackfill then Call.vb_queueBackfillItem vbid itm
        else Call.checkpoint_queueDirty vbid itm)
      if rv then
        ({ s1 with stats := { s1.stats with queue_size := s1.stats.queue_size + 1,
                                            totalEnqueued := s1.stats.totalEnqueued + 1 } }).log
          (Call.vb_doStatsForQueueing vbid itm)
      else s1
    | none => s0
  else s0

/-- `EventuallyPersistentStore::fetchValidValue`: the value handed back and
the store afterwards. -/
def fetchValidValue (s : Store) (vb : VBucket) (key : String) (wantDeleted : Bool) :
    Option StoredValue × Store :=
  match vb.ht.unlocked_find key wantDeleted with
  | some v =>
    if !v.isDeleted then
      if v.isExpired s.realTime then
        let s1 : Store := { s with stats := { s.stats with expired := s.stats.expired + 1 } }
        if v.isTempItem then
          (none, s1.log (Call.ht_unlocked_del vb.id key))
        else
          let s2 := s1.log (Call.ht_unlocked_softDelete vb.id key true 0 none)
          let v1 := vb.ht.afterSoftDelete v 0 none
          (none, queueDirty s2 key vb.id queue_op_del v1.getSeqno v1.getId
            queueDirty_tapBackfill_default)
      else
        (some v, s.log (Call.sv_touch vb.id key))
    else (some v, s)
  | none => (none, s)

/-- `EventuallyPersistentStore::processNeedMetaData`. -/
def processNeedMetaData (s : Store) (vb : VBucket) (itm : Item) (cookie : Nat) :
    ENGINE_ERROR_CODE × Store :=
  match fetchValidValue s vb itm.key fetchValidValue_wantDeleted_default with
  | (some v, s1) =>
    if !v.isResident then
      (ENGINE_EWOULDBLOCK,
        s1.log (Call.bgFetch itm.key itm.vbucketId (s1.bucketVersions itm.vbucketId)
          v.getId cookie))
    else (ENGINE_TMPFAIL, s1)
  | (none, s1) => (ENGINE_TMPFAIL, s1)

/-- `EventuallyPersistentStore::set` from `bool cas_op` on: the item is
applied to the hash table of `vb` and the outcome is translated. -/
def setApply (s : Store) (vb : VBucket) (itm : Item) (cookie : Nat) :
    ENGINE_ERROR_CODE × Store :=
  let cas_op : Bool := itm.cas != 0
  let r := vb.ht.set itm
  let mtype := r.1
  let row_id := r.2
  let s1 := s.log (Call.ht_set itm.vbucketId itm)
  match mtype with
  | NOMEM => (ENGINE_ENOMEM, s1)
  | INVALID_CAS => (ENGINE_KEY_EEXISTS, s1)
  | IS_LOCKED => (ENGINE_KEY_EEXISTS, s1)
  | NOT_FOUND =>
    if cas_op then (ENGINE_KEY_ENOENT, s1)
    else (ENGINE_SUCCESS, queueDirty s1 itm.key itm.vbucketId queue_op_set itm.seqno row_id
      queueDirty_tapBackfill_default)
  | WAS_DIRTY =>
    (ENGINE_SUCCESS, queueDirty s1 itm.key itm.vbucketId queue_op_set itm.seqno row_id
      queueDirty_tapBackfill_default)
  | WAS_CLEAN =>
    (ENGINE_SUCCESS, queueDirty s1 itm.key itm.vbucketId queue_op_set itm.seqno row_id
      queueDirty_tapBackfill_default)
  | INVALID_VBUCKET => (ENGINE_NOT_MY_VBUCKET, s1)
  | NEED_METADATA => processNeedMetaData s1 vb itm cookie

/-- `EventuallyPersistentStore::set`: the vbucket state checks, then `setApply`. -/
def set (s : Store) (itm : Item) (cookie : Nat) (force : Bool) : ENGINE_ERROR_CODE × Store :=
  match getVBucket s itm.vbucketId with
  | none => (ENGINE_NOT_MY_VBUCKET, s.incrNumNotMyVBuckets)
  | some vb =>
    if vb.state = vbucket_state_dead then
      (ENGINE_NOT_MY_VBUCKET, s.incrNumNotMyVBuckets)
    else if vb.state = vbucket_state_replica ∧ force = false then
      (ENGINE_NOT_MY_VBUCKET, s.incrNumNotMyVBuckets)
    else if vb.state = vbucket_state_pending ∧ force = false then
      let r := vb.addPendingOp cookie
      if r.1 then (ENGINE_EWOULDBLOCK, s.putVB itm.vbucketId r.2)
      else setApply (s.putVB itm.vbucketId r.2) r.2 itm cookie
    else setApply s vb itm cookie

/-- `EventuallyPersistentStore::add` from the CAS test on. -/
def addApply (s : Store) (vb : VBucket) (itm : Item) : ENGINE_ERROR_CODE × Store :=
  if itm.cas ≠ 0 then (ENGINE_NOT_STORED, s)
  else
    let s1 := s.log (Call.ht_add itm.vbucketId itm)
    match vb.ht.add itm with
    | ADD_NOMEM => (ENGINE_ENOMEM, s1)
    | ADD_EXISTS => (ENGINE_NOT_STORED, s1)
    | ADD_SUCCESS =>
      (ENGINE_SUCCESS, queueDirty s1 itm.key itm.vbucketId queue_op_set itm.seqno (-1)
        queueDirty_tapBackfill_default)
    | ADD_UNDEL =>
      (ENGINE_SUCCESS, queueDirty s1 itm.key itm.vbucketId queue_op_set itm.seqno (-1)
        queueDirty_tapBackfill_default)

/-- `EventuallyPersistentStore::add`: the vbucket state checks, then `addApply`. -/
def add (s : Store) (itm : Item) (cookie : Nat) : ENGINE_ERROR_CODE × Store :=
  match getVBucket s itm.vbucketId with
  | none => (ENGINE_NOT_MY_VBUCKET, s.incrNumNotMyVBuckets)
  | some vb =>
    if vb.state = vbucket_state_dead ∨ vb.state = vbucket_state_replica then
      (ENGINE_NOT_MY_VBUCKET, s.incrNumNotMyVBuckets)
    else if vb.state = vbucket_state_pending then
      let r := vb.addPendingOp cookie
      if r.1 then (ENGINE_EWOULDBLOCK, s.putVB itm.vbucketId r.2)
      else addApply (s.putVB itm.vbucketId r.2) r.2 itm
    else addApply s vb itm

/-- `EventuallyPersistentStore::unlockKey`. -/
def unlockKey (s : Store) (key : String) (vbucket : Nat) (cas : Nat) (currentTime : Nat) :
    ENGINE_ERROR_CODE × Store :=
  match getVBucketInState s vbucket vbucket_state_active with
  | none => (ENGINE_NOT_MY_VBUCKET, s.incrNumNotMyVBuckets)
  | some vb =>
    match fetchValidValue s vb key fetchValidValue_wantDeleted_default with
    | (some v, s1) =>
      if v.isLocked currentTime ∧ v.getCas = cas then
        (ENGINE_SUCCESS, s1.log (Call.sv_unlock vbucket key))
      else (ENGINE_TMPFAIL, s1)
    | (none, s1) =>
      if s1.degradedMode then (ENGINE_TMPFAIL, s1)
      else (ENGINE_KEY_ENOENT, s1)

/-- `std::set::insert` on `restore.itemsDeleted`. -/
def Restore.insertDeleted (r : Restore) (key : String) : Restore :=
  if key ∈ r.itemsDeleted then r else { r with itemsDeleted := key :: r.itemsDeleted }

/-- `EventuallyPersistentStore::deleteItem` from the hash-table lookup on. -/
def deleteItemApply (s : Store) (vb : VBucket) (key : String) (seqno : Nat) (cas : Nat)
    (vbucket : Nat) (use_meta : Bool) : ENGINE_ERROR_CODE × Store :=
  let v := vb.ht.unlocked_find key use_meta
  if v.isNone ∧ s.degradedMode = false then (ENGINE_KEY_ENOENT, s)
  else
    let s1 : Store :=
      if v.isNone then { s with restore := s.restore.insertDeleted key } else s
    let metaSeqno : Option Nat := if use_meta then some seqno else none
    let delrv := vb.ht.unlocked_softDelete v cas metaSeqno
    let s2 := s1.log (Call.ht_unlocked_softDelete vbucket key v.isSome cas metaSeqno)
    let v1 : Option StoredValue := v.map fun x => vb.ht.afterSoftDelete x cas metaSeqno
    let expired : Bool :=
      if delrv = NOT_FOUND ∨ delrv = INVALID_CAS then
        match v1 with
        | some x => x.isExpired s2.realTime
        | none => false
      else false
    let rv : ENGINE_ERROR_CODE :=
      if delrv = NOT_FOUND ∨ delrv = INVALID_CAS then
        (if delrv = INVALID_CAS then ENGINE_KEY_EEXISTS else ENGINE_KEY_ENOENT)
      else if delrv = IS_LOCKED then ENGINE_TMPFAIL
      else ENGINE_SUCCESS
    if delrv = WAS_CLEAN ∨ delrv = WAS_DIRTY ∨
        (delrv = NOT_FOUND ∧ (expired = true ∨ s2.degradedMode = true)) then
      let seqnum : Nat := match v1 with
        | some x => x.getSeqno
        | none => 0
      let rowid : Int := match v1 with
        | some x => x.getId
        | none => -1
      (rv, queueDirty s2 key vbucket queue_op_del seqnum rowid queueDirty_tapBackfill_default)
    else (rv, s2)

/-- `EventuallyPersistentStore::deleteItem`: the vbucket state checks, then
`deleteItemApply`. -/
def deleteItem (s : Store) (key : String) (seqno : Nat) (cas : Nat) (vbucket : Nat)
    (cookie : Nat) (force : Bool) (use_meta : Bool) : ENGINE_ERROR_CODE × Store :=
  match getVBucket s vbucket with
  | none => (ENGINE_NOT_MY_VBUCKET, s.incrNumNotMyVBuckets)
  | some vb =>
    if vb.state = vbucket_state_dead then
      (ENGINE_NOT_MY_VBUCKET, s.incrNumNotMyVBuckets)
    else if vb.state = vbucket_state_replica ∧ force = false then
      (ENGINE_NOT_MY_VBUCKET, s.incrNumNotMyVBuckets)
    else if vb.state = vbucket_state_pending ∧ force = false then
      let r := vb.addPendingOp cookie
      if r.1 then (ENGINE_EWOULDBLOCK, s.putVB vbucket r.2)
      else deleteItemApply (s.putVB vbucket r.2) r.2 key seqno cas vbucket use_meta
    else deleteItemApply s vb key seqno cas vbucket use_meta

/-- `EventuallyPersistentStore::restoreItem`. -/
def restoreItem (s : Store) (itm : Item) (op : queue_operation) : Int × Store :=
  let key := itm.key
  let vbid := itm.vbucketId
  match s.vbuckets vbid with
  | none => (-1, s)
  | some vb =>
    if key ∉ s.restore.itemsDeleted then
      let s1 := s.log (Call.ht_unlocked_restoreItem vbid itm op)
      if vb.ht.unlocked_restoreItem itm op then
        let qi : QueuedItem :=
          { key := key, vbucketId := vbid, op := op, vbucketVersion := s1.bucketVersions vbid,
            rowId := none, seqno := none }
        let batch : List QueuedItem := match s1.restore.items vbid with
          | some l => l ++ [qi]
          | none => [qi]
        (0, { s1 with restore := { s1.restore with
                items := fun i => if i = vbid then some batch else s1.restore.items i } })
      else (1, s1)
    else (1, s)

/-! ## ep.cc : the flusher's handling of one record -/

/-- `TransactionContext::enter`: the answer and the store afterwards. -/
def TransactionContext.enter (s : Store) : Bool × Store :=
  if s.tctx.intxn = false then
    let began := s.kvBegin s.kvBegins
    let s1 : Store :=
      { s with tctx := { s.tctx with _remaining := s.tctx.txnSize, intxn := began },
               kvBegins := s.kvBegins + 1 }
    (began, s1.log Call.kv_begin)
  else (s.tctx.intxn, s)

/-- The loop `while (!underlying->commit()) { sleep(1); ++stats.commitFailed; }`
when `n` attempts fail before one goes through. -/
def TransactionContext.commitLoop : Nat → Store → Store
  | 0, s => s.log (Call.kv_commit true)
  | n + 1, s =>
    let s1 := (s.log (Call.kv_commit false)).log (Call.sleep 1)
    TransactionContext.commitLoop n
      { s1 with stats := { s1.stats with commitFailed := s1.stats.commitFailed + 1 } }

/-- `TransactionContext::commit`. -/
def TransactionContext.commit (s : Store) : Store :=
  let s1 := s.log Call.mlog_commit1
  let s2 := TransactionContext.commitLoop (s1.kvCommitFailures s1.kvCommits) s1
  let s3 := { s2 with kvCommits := s2.kvCommits + 1 }
  let s4 := s3.log Call.mlog_commit2
  { s4 with
    stats := { s4.stats with flusherCommits := s4.stats.flusherCommits + 1 },
    tctx := { s4.tctx with transactionCallbacks := [], intxn := false,
                           uncommittedItems := [], numUncommittedItems := 0 } }

/-- `TransactionContext::addUncommittedItem`. -/
def TransactionContext.addUncommittedItem (s : Store) (qi : QueuedItem) : Store :=
  { s with tctx := { s.tctx with uncommittedItems := s.tctx.uncommittedItems ++ [qi],
                                 numUncommittedItems := s.tctx.numUncommittedItems + 1 } }

/-- `TransactionContext::addCallback` (declared outside these sources): the
callback joins `transactionCallbacks`, which `commit` empties. -/
def TransactionContext.addCallback (s : Store) (cb : PersistenceCallback) : Store :=
  { s with tctx := { s.tctx with
      transactionCallbacks := s.tctx.transactionCallbacks ++ [cb] } }

/-- `PersistenceCallback::redirty`: the store and the reject queue afterwards. -/
def PersistenceCallback.redirty (cb : PersistenceCallback) (s : Store)
    (rq : List QueuedItem) : Store × List QueuedItem :=
  let s1 : Store :=
    { s with stats := { s.stats with flushFailed := s.stats.flushFailed + 1 } }
  (s1.log (Call.invokeOnLockedStoredValue_reDirty cb.queuedItem.key cb.queuedItem.vbucketId
      cb.dirtied),
    rq ++ [cb.queuedItem])

/-- `PersistenceCallback::callback(int&)`, the callback of deletions. -/
def PersistenceCallback.callbackDel (cb : PersistenceCallback) (s : Store)
    (rq : List QueuedItem) (value : Int) : Except Fault (Store × List QueuedItem) :=
  if value ≥ 0 then
    let vb := getVBucket s cb.queuedItem.vbucketId
    let counted : Except Fault Store :=
      if value > 0 then
        match vb with
        | some b =>
          let s1 : Store :=
            { s with stats := { s.stats with totalPersisted := s.stats.totalPersisted + 1,
                                             delItems := s.stats.delItems + 1 } }
          Except.ok (s1.putVB cb.queuedItem.vbucketId { b with opsDelete := b.opsDelete + 1 })
        | none => Except.error Fault.nullVBucket
      else Except.ok s
    match counted with
    | Except.error f => Except.error f
    | Except.ok s1 =>
      let s2 := s1.log (Call.mlog_delItem cb.queuedItem.vbucketId cb.queuedItem.key)
      match vb with
      | some b =>
        match fetchValidValue s2 b cb.queuedItem.key true with
        | (some v, s3) =>
          if v.isDeleted then
            let s4 : Store :=
              if s3.degradedMode then
                { s3 with restore := s3.restore.insertDeleted cb.queuedItem.key }
              else s3
            Except.ok (s4.log (Call.ht_unlocked_del b.id cb.queuedItem.key), rq)
          else
            Except.ok (s3.log (Call.sv_clearId b.id cb.queuedItem.key), rq)
        | (none, s3) => Except.ok (s3, rq)
      | none => Except.ok (s2, rq)
  else Except.ok (cb.redirty s rq)

/-- `EventuallyPersistentStore::flushOneDeleteAll`. -/
def flushOneDeleteAll (s : Store) : Int × Store :=
  let s1 := s.log Call.kv_reset
  let s2 : Store := s.vbucketIds.foldl (fun acc vb => acc.log (Call.mlog_deleteAll vb)) s1
  let s3 := (s2.log Call.mlog_commit1).log Call.mlog_commit2
  (1, { s3 with diskFlushAll := false })

/-- `++vb->opsReject` on the vbucket stored under `vbid`. -/
def Store.bumpOpsReject (s : Store) (vbid : Nat) : Store :=
  match s.vbuckets vbid with
  | some b => s.putVB vbid { b with opsReject := b.opsReject + 1 }
  | none => s

/-- `++vb->opsCreate` or `++vb->opsUpdate` on the vbucket stored under `vbid`. -/
def Store.bumpOpsCreateOrUpdate (s : Store) (vbid : Nat) (create : Bool) : Store :=
  match s.vbuckets vbid with
  | some b =>
    if create then s.putVB vbid { b with opsCreate := b.opsCreate + 1 }
    else s.putVB vbid { b with opsUpdate := b.opsUpdate + 1 }
  | none => s

/-- The locals of `flushOneDelOrSet` that its three stages hand on. -/
structure FlushLocals where
  deleted : Bool
  isDirty : Bool
  dirtied : Nat
  ret : Int

/-- First stage of `flushOneDelOrSet`: a dirty value that expires within
`itemExpiryWindow` is marked clean, loses its id and is treated as deleted. -/
def flushExpiryStage (s : Store) (vbid : Nat) (key : String) (v : Option StoredValue)
    (l : FlushLocals) : FlushLocals × Store :=
  match v with
  | some sv =>
    if l.deleted = false ∧ l.isDirty = true ∧
        sv.isExpired (s.realTime + s.itemExpiryWindow) = true then
      let s1 : Store :=
        { s with stats := { s.stats with flushExpired := s.stats.flushExpired + 1 } }
      let s2 := (s1.log (Call.sv_markClean vbid key)).log (Call.sv_clearId vbid key)
      ({ l with dirtied := sv.markCleanDataAge, isDirty := false, deleted := true }, s2)
    else (l, s)
  | none => (l, s)

/-- Second stage of `flushOneDelOrSet` (`if (isDirty) { ... }`): decide
whether the dirty value is eligible; an ineligible one is pushed onto the
reject queue. The histogram updates are left out. -/
def flushEligibilityStage (s : Store) (vbid : Nat) (qi : QueuedItem) (v : Option StoredValue)
    (queued : Nat) (l : FlushLocals) (rq : List QueuedItem) :
    FlushLocals × Store × List QueuedItem :=
  match v with
  | some sv =>
    if l.isDirty then
      let dirtied := sv.getDataAge
      let now := s.currentTime
      let dataAge : Int := (now : Int) - (dirtied : Int)
      let dirtyAge : Int := (now : Int) - (queued : Int)
      if sv.isPendingId then
        let s1 := s.log (Call.sv_reDirty vbid qi.key dirtied)
        ({ l with dirtied := dirtied, isDirty := false }, s1.bumpOpsReject vbid, rq ++ [qi])
      else if dirtyAge > s.stats.queue_age_cap then
        let s1 : Store :=
          { s with stats := { s.stats with
              tooOld := s.stats.tooOld + 1, dirtyAge := dirtyAge, dataAge := dataAge,
              dirtyAgeHighWat := max dirtyAge s.stats.dirtyAgeHighWat,
              dataAgeHighWat := max dataAge s.stats.dataAgeHighWat } }
        ({ l with dirtied := dirtied }, s1, rq)
      else if dataAge < s.stats.min_data_age then
        let s1 : Store :=
          { s with stats := { s.stats with tooYoung := s.stats.tooYoung + 1 } }
        let s2 := s1.log (Call.sv_reDirty vbid qi.key dirtied)
        ({ l with dirtied := dirtied, isDirty := false,
                  ret := s.stats.min_data_age - dataAge },
          s2.bumpOpsReject vbid, rq ++ [qi])
      else
        let s1 : Store :=
          { s with stats := { s.stats with
              dirtyAge := dirtyAge, dataAge := dataAge,
              dirtyAgeHighWat := max dirtyAge s.stats.dirtyAgeHighWat,
              dataAgeHighWat := max dataAge s.stats.dataAgeHighWat } }
        ({ l with dirtied := dirtied }, s1, rq)
    else (l, s, rq)
  | none => (l, s, rq)

/-- Third stage of `flushOneDelOrSet`: submit a `set`, submit a `del`, call
the deletion callback directly, or do nothing. -/
def flushSubmitStage (s : Store) (qi : QueuedItem) (v : Option StoredValue) (itm : Item)
    (rowid : Int) (queued : Nat) (l : FlushLocals) (rq : List QueuedItem) :
    Except Fault (Int × Store × List QueuedItem) :=
  let vbid := qi.vbucketId
  if l.isDirty = true ∧ l.deleted = false then
    if qi.vbucketVersion ≠ s.bucketVersions vbid then
      Except.ok (l.ret, s, rq)
    else if s.highPrioritySnapshot then
      let s1 := s.log (Call.sv_clearPendingId vbid qi.key)
      Except.ok (l.ret, s1.bumpOpsReject vbid, rq ++ [qi])
    else
      let s1 := if rowid = -1 then s.log (Call.sv_setPendingId vbid qi.key) else s
      let cb : PersistenceCallback :=
        { queuedItem := qi, queued := queued, dirtied := l.dirtied, cas := itm.cas }
      let s2 := TransactionContext.addCallback s1 cb
      let s3 := s2.log (Call.kv_set itm qi.vbucketVersion cb)
      Except.ok (l.ret, s3.bumpOpsCreateOrUpdate vbid (rowid = -1), rq)
  else if l.deleted then
    match v with
    | some sv =>
      let tempItem := sv.isTempItem
      let cb : PersistenceCallback :=
        { queuedItem := qi, queued := queued, dirtied := l.dirtied, cas := 0 }
      if rowid > 0 ∨ tempItem = true then
        let vbver := s.bucketVersions vbid
        let s1 := TransactionContext.addCallback s cb
        Except.ok (l.ret, s1.log (Call.kv_del itm rowid vbver cb), rq)
      else
        match cb.callbackDel s rq 0 with
        | Except.ok (s1, rq1) => Except.ok (l.ret, s1, rq1)
        | Except.error f => Except.error f
    | none => Except.ok (l.ret, s, rq)
  else Except.ok (l.ret, s, rq)

/-- `EventuallyPersistentStore::flushOneDelOrSet`: the suggested wait, the
store and the reject queue afterwards. -/
def flushOneDelOrSet (s : Store) (qi : QueuedItem) (rejectQueue : List QueuedItem) :
    Except Fault (Int × Store × List QueuedItem) :=
  match getVBucket s qi.vbucketId with
  | none => Except.ok (0, s, rejectQueue)
  | some vb =>
    match fetchValidValue s vb qi.key true with
    | (v, s1) =>
      let s2 := s1.log (Call.vb_doStatsForFlushing qi.vbucketId qi)
      let rowid : Int := match v with
        | some sv => sv.getId
        | none => -1
      let deleted : Bool := match v with
        | some sv => sv.isDeleted
        | none => false
      let isDirty : Bool := match v with
        | some sv => sv.isDirty
        | none => false
      let queued := s2.queuedTimeOf qi
      let itm : Item := match v with
        | some sv =>
          { key := qi.key, flags := sv.getFlags, exptime := sv.getExptime,
            value := sv.getValue, cas := sv.getCas, id := rowid,
            vbucketId := qi.vbucketId, seqno := sv.getSeqno }
        | none =>
          { key := qi.key, flags := 0, exptime := 0, value := none, cas := 0, id := rowid,
            vbucketId := qi.vbucketId, seqno := 0 }
      let l0 : FlushLocals := { deleted := deleted, isDirty := isDirty, dirtied := 0, ret := 0 }
      match flushExpiryStage s2 qi.vbucketId qi.key v l0 with
      | (l1, s3) =>
        match flushEligibilityStage s3 qi.vbucketId qi v queued l1 rejectQueue with
        | (l2, s4, rq1) => flushSubmitStage s4 qi v itm rowid queued l2 rq1

/-- `EventuallyPersistentStore::flushOne`: the value returned, the store, the
input queue and the reject queue afterwards. -/
def flushOne (s : Store) (q : List QueuedItem) (rejectQueue : List QueuedItem) :
    Except Fault (Int × Store × List QueuedItem × List QueuedItem) :=
  match q with
  | [] => Except.error Fault.emptyQueue
  | qi :: rest =>
    let s1 : Store :=
      { s with stats := { s.stats with
          memOverhead := s.stats.memOverhead - (s.sizeofQueuedItem : Int) } }
    let body : Except Fault (Int × Store × List QueuedItem) :=
      match qi.op with
      | queue_op_flush =>
        match flushOneDeleteAll s1 with
        | (rv, s2) => Except.ok (rv, s2, rejectQueue)
      | queue_op_set =>
        if qi.vbucketVersion = s1.bucketVersions qi.vbucketId then
          let prevRejectCount := rejectQueue.length
          match flushOneDelOrSet s1 qi rejectQueue with
          | Except.ok (rv, s2, rq1) =>
            if rq1.length = prevRejectCount then
              Except.ok (rv, TransactionContext.addUncommittedItem s2 qi, rq1)
            else Except.ok (rv, s2, rq1)
          | Except.error f => Except.error f
        else Except.ok (0, s1, rejectQueue)
      | queue_op_del => flushOneDelOrSet s1 qi rejectQueue
      | queue_op_commit =>
        let s2 := TransactionContext.commit s1
        Except.ok (0, (TransactionContext.enter s2).2, rejectQueue)
      | queue_op_empty => Except.ok (0, s1, rejectQueue)
      | queue_op_other _ => Except.ok (0, s1, rejectQueue)
    match body with
    | Except.ok (rv, s2, rq1) =>
      Except.ok (rv, { s2 with stats := { s2.stats with
                          flusher_todo := s2.stats.flusher_todo - 1 } }, rest, rq1)
    | Except.error f => Except.error f

/-! ## ep.cc : vbucket life cycle -/

/-- The expression `vb_version == (std::numeric_limits<uint16_t>::max() - 1) ?
0 : vb_version + 1`, stored into a `uint16_t`, of `setVBucketState` and
`resetVBucket`. -/
def nextVBucketVersion (vb_version : Nat) : Nat :=
  if vb_version = 65535 - 1 then 0 else (vb_version + 1) % 65536

/-- Modelled from the spec: `VBucket::setState` is declared outside these
sources; a vbucket "transitions" to the state it is given, its wait list is
kept. -/
def VBucket.setState (vb : VBucket) (target : vbucket_state_t) : VBucket :=
  { vb with state := target }

/-- `VBucketMap::setBucketVersion`. -/
def Store.setBucketVersion (s : Store) (vbid : Nat) (version : Nat) : Store :=
  { s with bucketVersions := fun i => if i = vbid then version else s.bucketVersions i }

/-- `EventuallyPersistentStore::setVBucketState`; `fresh` carries the answers
of the `VBucket` object that the `else` branch constructs. -/
def setVBucketState (s : Store) (fresh : VBucket) (vbid : Nat) (target : vbucket_state_t) :
    Store :=
  match s.vbuckets vbid with
  | some vb =>
    let vb1 := vb.setState target
    let s1 := (s.putVB vbid vb1).log (Call.vb_setState vbid target)
    let s2 :=
      if vb1.state = vbucket_state_pending ∧ target = vbucket_state_active then
        s1.log Call.notifyNotificationThread
      else s1
    s2.log (Call.scheduleVBSnapshot false)
  | none =>
    let newvb : VBucket := { fresh with id := vbid, state := target, pendingOps := [] }
    let s1 :=
      if target ≠ vbucket_state_active then s.log (Call.checkpoint_setOpenCheckpointId vbid 0)
      else s
    let vb_version := s1.bucketVersions vbid
    let vb_new_version := nextVBucketVersion vb_version
    let s2 := s1.putVB vbid newvb
    let s3 := s2.setBucketVersion vbid vb_new_version
    s3.log (Call.scheduleVBSnapshot true)

/-- `EventuallyPersistentStore::resetVBucket`; the adjustment of
`stats.currentSize` by the sizes that `ht.clear()` reports is left out. -/
def resetVBucket (s : Store) (vbid : Nat) : Bool × Store :=
  match s.vbuckets vbid with
  | some vb =>
    if vb.ht.getNumItems = 0 then (true, s)
    else
      let vb_version := s.bucketVersions vbid
      let bumped := nextVBucketVersion vb_version
      let vb_new_version :=
        if s.backend = "couchdb" ∨ s.backend = "mccouch" then vb_version else bumped
      let s1 := s.setBucketVersion vbid vb_new_version
      let s2 := s1.log (Call.vbmap_setPersistenceCheckpointId vbid 0)
      let s3 := ((s2.log (Call.ht_clear vbid)).log (Call.checkpoint_clear vbid vb.state)).log
        (Call.vb_resetStats vbid)
      let s4 := (s3.log (Call.scheduleVBSnapshot true)).log
        (Call.scheduleVBDeletion vbid vb_version)
      (true, s4)
  | none => (false, s)

/-! ## ep.cc : configuration listener -/

/-- Modelled from the spec: `MutationLogCompactorConfig::setMaxLogSize` is
declared outside these sources; it sets the max log size. -/
def MutationLogCompactorConfig.setMaxLogSize (c : MutationLogCompactorConfig) (v : Nat) :
    MutationLogCompactorConfig :=
  { c with maxLogSize := v }

/-- Modelled from the spec: `MutationLogCompactorConfig::setMaxEntryRatio` is
declared outside these sources; it sets the max entry ratio. -/
def MutationLogCompactorConfig.setMaxEntryRatio (c : MutationLogCompactorConfig) (v : Nat) :
    MutationLogCompactorConfig :=
  { c with maxEntryRatio := v }

/-- Modelled from the spec: `MutationLogCompactorConfig::setQueueCap` is
declared outside these sources; it sets the queue cap. -/
def MutationLogCompactorConfig.setQueueCap (c : MutationLogCompactorConfig) (v : Nat) :
    MutationLogCompactorConfig :=
  { c with queueCap := v }

/-- `EPStoreValueChangeListener::sizeValueChanged`. -/
def EPStoreValueChangeListener.sizeValueChanged (s : Store) (key : String) (value : Nat) :
    Store :=
  if key = "bg_fetch_delay" then
    s.log (Call.store_setter "setBGFetchDelay" (value % 4294967296))
  else if key = "expiry_window" then
    s.log (Call.store_setter "setItemExpiryWindow" value)
  else if key = "tmp_item_expiry_window" then
    s.log (Call.store_setter "setTmpItemExpiryWindow" value)
  else if key = "vb_del_chunk_size" then
    s.log (Call.store_setter "setVbDelChunkSize" value)
  else if key = "vb_chunk_del_time" then
    s.log (Call.store_setter "setVbChunkDelThresholdTime" value)
  else if key = "max_txn_size" then
    s.log (Call.store_setter "setTxnSize" value)
  else if key = "exp_pager_stime" then
    s.log (Call.store_setter "setExpiryPagerSleeptime" value)
  else if key = "couch_vbucket_batch_count" then
    s.log (Call.schedule_VBucketBatchCountCallback value)
  else if key = "klog_max_log_size" then
    { s with mlogCompactorConfig := s.mlogCompactorConfig.setMaxLogSize value }
  else if key = "klog_max_entry_ratio" then
    { s with mlogCompactorConfig := s.mlogCompactorConfig.setMaxEntryRatio value }
  else if key = "klog_compactor_queue_cap" then
    { s with mlogCompactorConfig := s.mlogCompactorConfig.setMaxEntryRatio value }
  else s

/-- The three lines of the constructor `EventuallyPersistentStore` that load
the compactor settings `maxLogSize`, `maxEntryRatio` and `queueCap` from the
configuration values of `klog_max_log_size`, `klog_max_entry_ratio` and
`klog_compactor_queue_cap`. -/
def initCompactorConfig (c : MutationLogCompactorConfig)
    (klogMaxLogSize klogMaxEntryRatio klogCompactorQueueCap : Nat) :
    MutationLogCompactorConfig :=
  ((c.setMaxLogSize klogMaxLogSize).setMaxEntryRatio klogMaxEntryRatio).setQueueCap
    klogCompactorQueueCap

/-! ## ep.cc : requeueing and the callback of sets -/

/-- `EventuallyPersistentStore::getWriteQueueSize`. -/
def getWriteQueueSize (s : Store) : Nat :=
  (List.range s.vbucketsSize).foldl
    (fun size i =>
      match s.vbuckets i with
      | some vb =>
        if vb.state ≠ vbucket_state_dead then
          size + (vb.numItemsForPersistence + vb.backfillSize)
        else size
      | none => size)
    0

/-- The loop of `requeueRejectedItems`: `writing.push(rej->front()); rej->pop()`
until `rej` is empty. The pair is `writing` and `rej` afterwards. -/
def requeueLoop : List QueuedItem → List QueuedItem → List QueuedItem × List QueuedItem
  | writing, [] => (writing, [])
  | writing, x :: rej => requeueLoop (writing ++ [x]) rej

/-- `EventuallyPersistentStore::requeueRejectedItems`: the store, the queue
`writing` and the reject queue afterwards. -/
def requeueRejectedItems (s : Store) (writing rej : List QueuedItem) :
    Store × List QueuedItem × List QueuedItem :=
  let queue_size := rej.length
  let r := requeueLoop writing rej
  let s1 : Store :=
    { s with stats := { s.stats with
        memOverhead := s.stats.memOverhead + (queue_size * s.sizeofQueuedItem : Nat) } }
  let s2 : Store := { s1 with stats := { s1.stats with queue_size := getWriteQueueSize s1 } }
  let s3 : Store := { s2 with stats := { s2.stats with flusher_todo := (r.1.length : Int) } }
  (s3, r.1, r.2)

/-- The requests of `n` failing `commit()` attempts, each followed by
`sleep(1)`. -/
def failedCommitAttempts : Nat → List Call
  | 0 => []
  | n + 1 => Call.kv_commit false :: Call.sleep 1 :: failedCommitAttempts n


/-- `TransactionContext::leave`; `remaining()`, declared outside these
sources, reads `_remaining`. -/
def TransactionContext.leave (s : Store) (completed : Int) : Store :=
  let s1 : Store :=
    { s with tctx := { s.tctx with _remaining := s.tctx._remaining - completed } }
  if s1.tctx._remaining ≤ 0 ∧ s1.tctx.intxn = true then TransactionContext.commit s1
  else s1

/-- The loop `while (!q->empty()) { rejectQueue->push(q->front()); q->pop(); }`
of `flushSome`: the reject queue afterwards. -/
def copyToRejectQueue : List QueuedItem → List QueuedItem → List QueuedItem
  | [], rejectQueue => rejectQueue
  | qi :: rest, rejectQueue => copyToRejectQueue rest (rejectQueue ++ [qi])

/-- The `for` loop of `flushSome`: the store, the input queue, the reject
queue, `oldest` and `completed` when it ends. `flushOne` pops the front
record, so the loop goes on with the rest of the queue. -/
def flushSomeLoop (tsz : Int) :
    List QueuedItem → Store → List QueuedItem → Int → Nat →
      Except Fault (Store × List QueuedItem × List QueuedItem × Int × Nat)
  | [], s, rejectQueue, oldest, completed => Except.ok (s, [], rejectQueue, oldest, completed)
  | qi :: rest, s, rejectQueue, oldest, completed =>
    if (completed : Int) < tsz ∧ s.shouldPreemptFlush completed = false then
      match flushOne s (qi :: rest) rejectQueue with
      | Except.ok (n, s1, _, rq1) =>
        flushSomeLoop tsz rest s1 rq1 (if n ≠ 0 ∧ n < oldest then n else oldest)
          (completed + 1)
      | Except.error f => Except.error f
    else Except.ok (s, qi :: rest, rejectQueue, oldest, completed)

/-- `EventuallyPersistentStore::flushSome`: the value returned, the store,
the input queue and the reject queue afterwards. -/
def flushSome (s : Store) (q : List QueuedItem) (rejectQueue : List QueuedItem) :
    Except Fault (Int × Store × List QueuedItem × List QueuedItem) :=
  match TransactionContext.enter s with
  | (false, s1) =>
    let s2 : Store :=
      { s1 with stats := { s1.stats with beginFailed := s1.stats.beginFailed + 1 } }
    Except.ok (1, s2, [], copyToRejectQueue q rejectQueue)
  | (true, s1) =>
    let tsz := s1.tctx._remaining
    let oldest := s1.stats.min_data_age
    match flushSomeLoop tsz q s1 rejectQueue oldest 0 with
    | Except.error f => Except.error f
    | Except.ok (s2, q1, rq1, oldest1, completed) =>
      let s3 : Store :=
        if s2.shouldPreemptFlush completed then
          { s2 with stats := { s2.stats with
              flusherPreempts := s2.stats.flusherPreempts + 1 } }
        else TransactionContext.commit s2
      Except.ok (oldest1, TransactionContext.leave s3 completed, q1, rq1)

/-! ## ep.cc : enabling traffic during warmup -/

/-- `EventuallyPersistentStore::maybeEnableTraffic`. The counters are
converted to `double`, and each product is rounded to a `double` before it is
compared, as binary64 arithmetic does. -/
def maybeEnableTraffic (s : Store) : Store :=
  if s.degradedMode then
    let memoryUsed : Double := Double.ofNat s.stats.totalMemoryUsed
    let maxSize : Double := Double.ofNat s.stats.maxDataSize
    if Double.gt memoryUsed (Double.mul maxSize s.stats.warmupMemUsedCap) then
      s.log Call.warmupCompleted
    else if Double.gt (Double.ofNat s.stats.warmedUp)
        (Double.mul (Double.ofNat s.stats.warmedUpMeta) s.stats.warmupNumReadCap) then
      s.log Call.warmupCompleted
    else s
  else s

/-! ## ep.cc : chunked vbucket deletion -/

/-- A range of row ids, `chunk_range_t`. -/
abbrev chunk_range_t := Int × Int

/-- Results of `completeVBucketDeletion`. -/
inductive vbucket_del_result where
  | vbucket_del_success
  | vbucket_del_fail
  | vbucket_del_invalid
  deriving DecidableEq, Repr

open vbucket_del_result

/-- The members of `VBucketDeletionCallback` that `callback` reads or writes.
`current_range` is the position of the iterator in `range_list`; a position
that holds no range is `end()`. `splitChunkRange` and `mergeChunkRanges` are
the answers of the range list's methods of these names, declared outside
these sources: the list and the position of the iterator afterwards. Sizes
and times are unbounded integers (no wrap at 64 bits). -/
structure VBucketDeletionCallback where
  vbucket : Nat
  vb_version : Nat
  chunk_size : Nat
  chunk_num : Nat
  chunk_del_range_size : Int
  chunk_del_threshold_time : Nat
  execution_time : Nat
  range_list : List chunk_range_t
  current_range : Nat
  splitChunkRange : List chunk_range_t → Nat → Int → List chunk_range_t × Nat
  mergeChunkRanges : List chunk_range_t → Nat → Int → List chunk_range_t × Nat

/-- What one run of `VBucketDeletionCallback::callback` does: the value
returned, the range and the `isLastChunk` flag handed to
`completeVBucketDeletion`, whether the task was snoozed, and the members
afterwards. -/
structure VBucketDeletionOutcome where
  rv : Bool
  range : chunk_range_t
  isLastChunk : Bool
  snoozed : Bool
  cb : VBucketDeletionCallback

/-- The head of `VBucketDeletionCallback::callback`: the range to delete and
`isLastChunk`. `back()` is only read of a list that holds the current range. -/
def VBucketDeletionCallback.chunkRange (cb : VBucketDeletionCallback) :
    chunk_range_t × Bool :=
  match cb.range_list[cb.current_range]? with
  | none => ((-1, -1), true)
  | some r =>
    let isLastChunk : Bool :=
      match cb.range_list.getLast? with
      | some b => decide (r.2 = b.2)
      | none => false
    ((r.1, r.2), isLastChunk)

/-- `VBucketDeletionCallback::callback`, given the answer of
`completeVBucketDeletion` and the time `chunk_time` (in microseconds) it
took. The statistics are left out. -/
def VBucketDeletionCallback.callback (cb : VBucketDeletionCallback)
    (result : vbucket_del_result) (chunk_time : Nat) : Except Fault VBucketDeletionOutcome :=
  let range := cb.chunkRange.1
  let isLastChunk := cb.chunkRange.2
  let cb1 : VBucketDeletionCallback :=
    { cb with execution_time := cb.execution_time + chunk_time }
  match result with
  | vbucket_del_success =>
    if isLastChunk = false then
      let chunk_del_time : Nat := chunk_time / 1000
      let size1 : Int :=
        if range.1 ≠ -1 ∧ range.2 ≠ -1 ∧ chunk_del_time ≠ 0 then
          max (100 : Int)
            (Int.tdiv (cb1.chunk_del_range_size * (cb1.chunk_del_threshold_time : Int))
              (chunk_del_time : Int))
        else cb1.chunk_del_range_size
      let next := cb1.current_range + 1
      match cb1.range_list[next]? with
      | none => Except.error Fault.endOfRangeList
      | some r =>
        let moved : List chunk_range_t × Nat :=
          if r.2 - r.1 > size1 then cb1.splitChunkRange cb1.range_list next size1
          else cb1.mergeChunkRanges cb1.range_list next size1
        Except.ok
          { rv := true, range := range, isLastChunk := isLastChunk, snoozed := false,
            cb := { cb1 with chunk_del_range_size := size1, range_list := moved.1,
                             current_range := moved.2, chunk_num := cb1.chunk_num + 1 } }
    else
      Except.ok
        { rv := false, range := range, isLastChunk := isLastChunk, snoozed := false, cb := cb1 }
  | vbucket_del_fail =>
    Except.ok
      { rv := true, range := range, isLastChunk := isLastChunk, snoozed := true, cb := cb1 }
  | vbucket_del_invalid =>
    Except.ok
      { rv := false, range := range, isLastChunk := isLastChunk, snoozed := false, cb := cb1 }

/-! ## warmup.cc : loading items -/

/-- What the loader reads from a `GetValue`. -/
structure GetValue where
  getValue : Option Item
  getVBucketVersion : Nat
  isPartial : Bool

/-- The members of `LoadStorageKVPairCallback`, with the answers of its
collaborators: `insert n` is the outcome of the `n`-th `HashTable::insert`
request of a load, `itemIsExpired` the answer of `Item::isExpired`,
`doReconstructLog` of `warmupTask->doReconstructLog()`. -/
structure LoadStorageKVPairCallback where
  startTime : Nat
  hasPurged : Bool
  maybeEnableTraffic : Bool
  insert : Nat → mutation_type_t
  itemIsExpired : Item → Nat → Bool
  doReconstructLog : Bool

/-- The test `vb_version != static_cast<uint16_t>(-1) &&
val.getVBucketVersion() != vb_version` by which the loader takes an item for
a stale one. -/
def LoadStorageKVPairCallback.isInvalidItem (vb_version : Nat) (itemVersion : Nat) : Bool :=
  decide (vb_version ≠ 65535 ∧ itemVersion ≠ vb_version)

/-- `LoadStorageKVPairCallback::shouldEject`. -/
def LoadStorageKVPairCallback.shouldEject (s : Store) : Bool :=
  decide (s.stats.totalMemoryUsed ≥ s.stats.mem_low_wat)

/-- `LoadStorageKVPairCallback::purge`; the `visitBucket` of the base class,
declared outside these sources, is taken to accept every vbucket. -/
def LoadStorageKVPairCallback.purge (lc : LoadStorageKVPairCallback) (s : Store) :
    LoadStorageKVPairCallback × Store :=
  let s1 : Store :=
    s.vbucketIds.foldl
      (fun acc vbid =>
        match acc.vbuckets vbid with
        | some _ => acc.log (Call.ht_visit_eject vbid)
        | none => acc)
      s
  ({ lc with hasPurged := true }, s1)

/-- One pass through the body of the `do ... while` loop of
`LoadStorageKVPairCallback::callback`, for the `attempt`-th insert:
`succeeded`, the loader and the store afterwards. -/
def LoadStorageKVPairCallback.insertOnce (lc : LoadStorageKVPairCallback) (s : Store)
    (itm : Item) (isPartial : Bool) (retry : Int) (attempt : Nat) :
    Except Fault (Bool × LoadStorageKVPairCallback × Store) :=
  let s1 := s.log
    (Call.ht_insert itm.vbucketId itm (LoadStorageKVPairCallback.shouldEject s) isPartial)
  match lc.insert attempt with
  | NOMEM =>
    if retry = 2 then
      if lc.hasPurged then
        Except.ok (false, lc,
          { s1 with stats := { s1.stats with warmOOM := s1.stats.warmOOM + 1 } })
      else
        let p := lc.purge s1
        Except.ok (false, p.1, p.2)
    else
      Except.ok (false, lc,
        { s1 with stats := { s1.stats with warmOOM := s1.stats.warmOOM + 1 } })
  | INVALID_CAS =>
    Except.ok (true, lc,
      { s1 with stats := { s1.stats with warmDups := s1.stats.warmDups + 1 } })
  | NOT_FOUND => Except.ok (true, lc, s1)
  | _ => Except.error Fault.abort

/-- The loop `do { ... } while (!succeeded && retry > 0)` of
`LoadStorageKVPairCallback::callback`, run for at most `fuel` passes; `none`
when the loop has not ended by then. `retry` is the local of that name, which
no statement of the loop assigns. -/
def LoadStorageKVPairCallback.insertLoop (itm : Item) (isPartial : Bool) (retry : Int) :
    Nat → Nat → LoadStorageKVPairCallback → Store →
      Option (Except Fault (Bool × LoadStorageKVPairCallback × Store))
  | 0, _, _, _ => none
  | fuel + 1, attempt, lc, s =>
    match lc.insertOnce s itm isPartial retry attempt with
    | Except.error f => some (Except.error f)
    | Except.ok (succeeded, lc1, s1) =>
      if succeeded = false ∧ retry > 0 then
        LoadStorageKVPairCallback.insertLoop itm isPartial retry fuel (attempt + 1) lc1 s1
      else some (Except.ok (succeeded, lc1, s1))

/-- The end of `LoadStorageKVPairCallback::callback`: `++stats.warmedUpMeta`
or `++stats.warmedUp`. -/
def LoadStorageKVPairCallback.countLoaded (s : Store) (isPartial : Bool) : Store :=
  if isPartial then
    { s with stats := { s.stats with warmedUpMeta := s.stats.warmedUpMeta + 1 } }
  else { s with stats := { s.stats with warmedUp := s.stats.warmedUp + 1 } }

/-- `LoadStorageKVPairCallback::callback`, its loop run for at most `fuel`
passes; `fresh` carries the answers of the `VBucket` object constructed for
an item of a vbucket that does not exist. -/
def LoadStorageKVPairCallback.callback (fuel : Nat) (lc : LoadStorageKVPairCallback)
    (s : Store) (fresh : VBucket) (val : GetValue) :
    Option (Except Fault (LoadStorageKVPairCallback × Store)) :=
  match val.getValue with
  | some i =>
    let vb_version := s.bucketVersions i.vbucketId
    if LoadStorageKVPairCallback.isInvalidItem vb_version val.getVBucketVersion then
      some (Except.ok (lc, s.log (Call.addInvalidItem i val.getVBucketVersion)))
    else
      let s1 : Store :=
        match s.vbuckets i.vbucketId with
        | some _ => s
        | none =>
          (s.putVB i.vbucketId
            { fresh with id := i.vbucketId, state := vbucket_state_dead,
                         pendingOps := [] }).setBucketVersion
            i.vbucketId val.getVBucketVersion
      match LoadStorageKVPairCallback.insertLoop i val.isPartial 2 fuel 0 lc s1 with
      | none => none
      | some (Except.error f) => some (Except.error f)
      | some (Except.ok (succeeded, lc1, s2)) =>
        let s3 : Store :=
          if succeeded = true ∧ lc1.itemIsExpired i lc1.startTime = true then
            (deleteItem s2 i.key 0 0 i.vbucketId 0 true false).2
          else s2
        let s4 : Store :=
          if succeeded = true ∧ lc1.doReconstructLog = true then
            s3.log (Call.mlog_newItem i.vbucketId i.key i.id)
          else s3
        let s5 : Store := if lc1.maybeEnableTraffic then EpEngine.maybeEnableTraffic s4 else s4
        some (Except.ok (lc1, LoadStorageKVPairCallback.countLoaded s5 val.isPartial))
  | none => some (Except.ok (lc, LoadStorageKVPairCallback.countLoaded s val.isPartial))

/-! ## tapconnection.cc : the ack window -/

/-- The vbucket state checks at the head of `set` and `deleteItem` let the
operation through to the hash table: the vbucket is active, or it is a
replica or pending and `force` is given. -/
def passesStateChecks (vb : VBucket) (force : Bool) : Prop :=
  vb.state = vbucket_state_active ∨
    (force = true ∧ (vb.state = vbucket_state_replica ∨ vb.state = vbucket_state_pending))

/-! ## Concrete inputs used to exercise the theorems -/

/-- A stored value that is resident, clean, unlocked and never expires. -/
def plainValue : StoredValue :=
  { isDeleted := false, isExpired := fun _ => false, isTempItem := false,
    isLocked := fun _ => false, isResident := true, isDirty := false, isPendingId := false,
    getCas := 5, getSeqno := 1, getId := 3, getFlags := 0, getExptime := 0,
    getValue := some "v", getDataAge := 0, markCleanDataAge := 0, ejectValue := true }

/-- A persisted value (row id 3) that has been soft-deleted. -/
def tombstone : StoredValue :=
  { plainValue with isDeleted := true, getValue := none }

/-- A persisted value (row id 3, CAS 5) that is locked at every time. -/
def lockedValue : StoredValue :=
  { plainValue with isLocked := fun _ => true }

/-- A hash table that gives fixed answers. -/
def fixedHashTable (setAnswer : mutation_type_t) (addAnswer : add_type_t)
    (found : Option StoredValue) (restored : Bool) : HashTable :=
  { set := fun _ => (setAnswer, -1), add := fun _ => addAnswer,
    unlocked_find := fun _ _ => found,
    unlocked_softDelete := fun v _ _ => if v.isSome then WAS_CLEAN else NOT_FOUND,
    afterSoftDelete := fun v _ _ => v,
    unlocked_restoreItem := fun _ _ => restored, getNumItems := 1 }

/-- Vbucket 0 in a given state around a given hash table. -/
def vbucketZero (st : vbucket_state_t) (ht : HashTable) : VBucket :=
  { id := 0, state := st, pendingOps := [], ht := ht,
    checkpointQueueDirty := fun _ => true, queueBackfillItem := fun _ => true,
    opsCreate := 0, opsUpdate := 0, opsDelete := 0, opsReject := 0,
    eligibleForEviction := fun _ => true, numItemsForPersistence := 0, backfillSize := 0 }

/-- Statistics whose counters are all zero. -/
def zeroStats : EPStats :=
  { numNotMyVBuckets := 0, expired := 0, queue_size := 0, totalEnqueued := 0,
    flusher_todo := 0, memOverhead := 0, flushExpired := 0, flushFailed := 0, tooOld := 0,
    tooYoung := 0, min_data_age := 0, queue_age_cap := 900, dirtyAge := 0, dataAge := 0,
    dirtyAgeHighWat := 0, dataAgeHighWat := 0, totalPersisted := 0, delItems := 0,
    commitFailed := 0, flusherCommits := 0, newItems := 0, numReplicaEjects := 0,
    totalMemoryUsed := 0, mem_low_wat := 0, beginFailed := 0, flusherPreempts := 0,
    warmOOM := 0, warmDups := 0, warmedUp := 0, warmedUpMeta := 0, maxDataSize := 200,
    warmupMemUsedCap := Double.finite false 1 (-1),
    warmupNumReadCap := Double.finite false 1 (-1) }

/-- A store that holds at most vbucket 0 (at version 8), with a given set of
keys deleted during restore and a given degraded-mode flag. -/
def smallStore (vb0 : Option VBucket) (itemsDeleted : List String) (degraded : Bool) : Store :=
  { vbuckets := fun i => if i = 0 then vb0 else none,
    bucketVersions := fun _ => 8, vbucketIds := [0], highPrioritySnapshot := false,
    doPersistence := true, degradedMode := degraded, diskFlushAll := false,
    realTime := 100, currentTime := 100, itemExpiryWindow := 3,
    restore := { itemsDeleted := itemsDeleted, items := fun _ => none },
    stats := zeroStats,
    tctx := { intxn := true, _remaining := 10, txnSize := 10, transactionCallbacks := [],
              uncommittedItems := [], numUncommittedItems := 0 },
    kvBegin := fun _ => true, kvBegins := 0, kvCommitFailures := fun _ => 0, kvCommits := 0,
    queuedTimeOf := fun _ => 90, sizeofQueuedItem := 16, backend := "sqlite",
    vbucketsSize := 1,
    mlogCompactorConfig := { maxLogSize := 0, maxEntryRatio := 0, queueCap := 0, sleepTime := 0 },
    shouldPreemptFlush := fun _ => false,
    calls := [] }

/-- An item for key `k` of vbucket 0 with a given CAS. -/
def itemK (cas : Nat) : Item :=
  { key := "k", vbucketId := 0, cas := cas, seqno := 1, id := -1, flags := 0, exptime := 0,
    value := some "v" }

/-- A queued record for key `k` of vbucket 0 with a given operation and
vbucket version. -/
def recordK (op : queue_operation) (vbver : Nat) : QueuedItem :=
  { key := "k", vbucketId := 0, op := op, vbucketVersion := vbver, rowId := some 3,
    seqno := some 1 }

/-- A tombstone whose row id is still pending (`-2`): dirty, not yet
persisted. -/
def pendingTombstone : StoredValue :=
  { plainValue with isDeleted := true, getValue := none, isDirty := true,
                    isPendingId := true, getId := -2 }

/-- The store of `smallStore` outside a transaction, with a given answer of
the backing store to `begin()`, a given transaction size and a given answer
of `shouldPreemptFlush`. -/
def idleStore (vb0 : Option VBucket) (begins : Bool) (txnSize : Int)
    (preempt : Nat → Bool) : Store :=
  { smallStore vb0 [] false with
    tctx := { intxn := false, _remaining := 0, txnSize := txnSize, transactionCallbacks := [],
              uncommittedItems := [], numUncommittedItems := 0 },
    kvBegin := fun _ => begins, shouldPreemptFlush := preempt }


/-- A deletion task over the ranges `[0,100]`, `[100,250]`, `[250,300]`, at
its first range, with range size 100 and threshold 500 ms; splitting and
merging leave the list as it is. -/
def threeRanges : VBucketDeletionCallback :=
  { vbucket := 0, vb_version := 8, chunk_size := 100, chunk_num := 1,
    chunk_del_range_size := 100, chunk_del_threshold_time := 500, execution_time := 0,
    range_list := [(0, 100), (100, 250), (250, 300)], current_range := 0,
    splitChunkRange := fun l i _ => (l, i), mergeChunkRanges := fun l i _ => (l, i) }


/-- A store in degraded mode with given readings of the memory used and of
the counts of warmed-up values and metadata; `maxDataSize` is 200 and both
caps are one half (the `double` `1 * 2^-1`). -/
def warmingStore (memoryUsed warmedUp warmedUpMeta : Nat) : Store :=
  { smallStore none [] true with
    stats := { zeroStats with totalMemoryUsed := memoryUsed, warmedUp := warmedUp,
                              warmedUpMeta := warmedUpMeta } }

/-- The `double` that the division `pct / 100.0` of two `double`s yields for
a whole percentage: the binary64 value nearest to `pct / 100`. -/
def percentCap (pct : Nat) : Double := Double.round false pct 100

/-- A store in degraded mode with `maxDataSize = 100`, a given reading of the
memory used and the memory cap `pct / 100.0`; no value has been warmed up. -/
def percentStore (memoryUsed pct : Nat) : Store :=
  { smallStore none [] true with
    stats := { zeroStats with totalMemoryUsed := memoryUsed, maxDataSize := 100,
                              warmupMemUsedCap := percentCap pct } }

/-- A loader whose every insert runs out of memory. -/
def starvedLoader : LoadStorageKVPairCallback :=
  { startTime := 100, hasPurged := false, maybeEnableTraffic := false,
    insert := fun _ => NOMEM, itemIsExpired := fun _ _ => false, doReconstructLog := false }


/-! ## Theorems: warmup state machine -/

/-- C1. For every current state `s` and every integer target `t`,
`legalTransition` answers `true` exactly for the ten listed pairs; no
transition leaves `Done` and none enters `Initialize`. -/
theorem legalTransition_iff_listed :
    (∀ s t : Int, (WarmupState.mk s).legalTransition t = true ↔
      (s, t) ∈ [(WarmupState.Initialize, WarmupState.LoadingMutationLog),
                (WarmupState.LoadingMutationLog, WarmupState.LoadingAccessLog),
                (WarmupState.LoadingMutationLog, WarmupState.EstimateDatabaseItemCount),
                (WarmupState.EstimateDatabaseItemCount, WarmupState.KeyDump),
                (WarmupState.KeyDump, WarmupState.LoadingKVPairs),
                (WarmupState.KeyDump, WarmupState.LoadingAccessLog),
                (WarmupState.LoadingAccessLog, WarmupState.Done),
                (WarmupState.LoadingAccessLog, WarmupState.LoadingData),
                (WarmupState.LoadingKVPairs, WarmupState.Done),
                (WarmupState.LoadingData, WarmupState.Done)]) ∧
    (∀ t : Int, (WarmupState.mk WarmupState.Done).legalTransition t = false) ∧
    (∀ s : Int, (WarmupState.mk s).legalTransition WarmupState.Initialize = false) := by
  refine ⟨?_, ?_, ?_⟩
  · intro s t
    simp only [List.mem_cons, Prod.mk.injEq, List.mem_nil_iff, or_false]
    constructor
    · intro h
      simp only [WarmupState.legalTransition] at h
      split_ifs at h with h0 h1 h2 h3 h4 h5 h6
      · simp only [beq_iff_eq] at h; subst h0 h; simp
      · simp only [beq_iff_eq, Bool.or_eq_true] at h; subst h1
        rcases h with h | h <;> subst h <;> simp
      · simp only [beq_iff_eq] at h; subst h2 h; simp
      · simp only [beq_iff_eq, Bool.or_eq_true] at h; subst h3
        rcases h with h | h <;> subst h <;> simp
      · simp only [beq_iff_eq, Bool.or_eq_true] at h; subst h4
        rcases h with h | h <;> subst h <;> simp
      · simp only [beq_iff_eq] at h; subst h5 h; simp
      · simp only [beq_iff_eq] at h; subst h6 h; simp
    · intro h
      have legal_of : ∀ a b : Int, (WarmupState.mk a).legalTransition b = true →
          s = a ∧ t = b → (WarmupState.mk s).legalTransition t = true := by
        intro a b hab hst
        rw [hst.1, hst.2]
        exact hab
      rcases h with h | h | h | h | h | h | h | h | h | h
      all_goals exact legal_of _ _ (by rfl) h
  · intro t
    simp [WarmupState.legalTransition]
  · intro s
    simp only [WarmupState.legalTransition]
    split_ifs <;> simp

/-- C2. `transition` moves to the target when `legalTransition` allows it,
and otherwise throws and leaves the state as it was. -/
theorem transition_sets_or_throws (s t : Int) :
    ((WarmupState.mk s).legalTransition t = true →
        (WarmupState.mk s).transition t = (Except.ok (), WarmupState.mk t)) ∧
    ((WarmupState.mk s).legalTransition t = false →
        (∃ msg, ((WarmupState.mk s).transition t).1 = Except.error msg) ∧
        ((WarmupState.mk s).transition t).2 = WarmupState.mk s) := by
  constructor
  · intro h
    unfold WarmupState.transition
    rw [if_pos h]
  · intro h
    unfold WarmupState.transition
    rw [if_neg (by rw [h]; exact Bool.false_ne_true)]
    exact ⟨⟨_, rfl⟩, rfl⟩

namespace Warmup

end Warmup

@[simp] theorem Store.log_calls (s : Store) (c : Call) : (s.log c).calls = s.calls ++ [c] := rfl

@[simp] theorem Store.log_degradedMode (s : Store) (c : Call) :
    (s.log c).degradedMode = s.degradedMode := rfl

@[simp] theorem Store.log_restore (s : Store) (c : Call) : (s.log c).restore = s.restore := rfl

@[simp] theorem Store.log_vbuckets (s : Store) (c : Call) : (s.log c).vbuckets = s.vbuckets := rfl

@[simp] theorem Store.log_bucketVersions (s : Store) (c : Call) :
    (s.log c).bucketVersions = s.bucketVersions := rfl

@[simp] theorem Store.log_tctx (s : Store) (c : Call) : (s.log c).tctx = s.tctx := rfl

@[simp] theorem Store.log_stats (s : Store) (c : Call) : (s.log c).stats = s.stats := rfl

@[simp] theorem Store.log_doPersistence (s : Store) (c : Call) :
    (s.log c).doPersistence = s.doPersistence := rfl

/-- An entry into `queueDirty` leaves exactly one mark in the call log. -/
theorem queueDirty_queueDirtyCalls (s : Store) (key : String) (vbid : Nat)
    (op : queue_operation) (seqno : Nat) (rowid : Int) (tb : Bool) :
    List.filter Call.isQueueDirty (queueDirty s key vbid op seqno rowid tb).calls =
      List.filter Call.isQueueDirty s.calls ++ [Call.queueDirty key vbid op seqno rowid tb] := by
  unfold queueDirty
  simp only [Store.log]
  split_ifs <;> (try split) <;> (try split_ifs) <;>
    simp [List.filter_append, Call.isQueueDirty]

/-- `queueDirty` unlocks nothing. -/
theorem queueDirty_unlockCalls (s : Store) (key : String) (vbid : Nat)
    (op : queue_operation) (seqno : Nat) (rowid : Int) (tb : Bool) :
    List.filter Call.isUnlock (queueDirty s key vbid op seqno rowid tb).calls =
      List.filter Call.isUnlock s.calls := by
  unfold queueDirty
  simp only [Store.log]
  split_ifs <;> (try split) <;> (try split_ifs) <;>
    simp [List.filter_append, Call.isUnlock]

/-- `queueDirty` leaves the restore batches, the degraded-mode flag and the
vbucket map alone. -/
theorem queueDirty_frame (s : Store) (key : String) (vbid : Nat)
    (op : queue_operation) (seqno : Nat) (rowid : Int) (tb : Bool) :
    (queueDirty s key vbid op seqno rowid tb).restore = s.restore ∧
    (queueDirty s key vbid op seqno rowid tb).degradedMode = s.degradedMode ∧
    (queueDirty s key vbid op seqno rowid tb).vbuckets = s.vbuckets := by
  unfold queueDirty
  simp only [Store.log]
  split_ifs <;> (try split) <;> (try split_ifs) <;> simp

/-- What `fetchValidValue` hands back: the value found, unless it is a live
value that has expired. -/
theorem fetchValidValue_result (s : Store) (vb : VBucket) (key : String) (wd : Bool)
    (v : StoredValue) :
    (fetchValidValue s vb key wd).1 = some v ↔
      (vb.ht.unlocked_find key wd = some v ∧
        (v.isDeleted = true ∨ v.isExpired s.realTime = false)) := by
  unfold fetchValidValue
  cases hf : vb.ht.unlocked_find key wd with
  | none => simp
  | some x =>
    cases hd : x.isDeleted <;> cases he : x.isExpired s.realTime <;> cases ht : x.isTempItem <;>
      simp [hd, he, ht] <;> (intro h; subst h; simp [hd, he])

/-- `fetchValidValue` hands back nothing exactly when nothing is found or
the value found is live and expired. -/
theorem fetchValidValue_none (s : Store) (vb : VBucket) (key : String) (wd : Bool) :
    (fetchValidValue s vb key wd).1 = none ↔
      (vb.ht.unlocked_find key wd = none ∨
        ∃ v, vb.ht.unlocked_find key wd = some v ∧ v.isDeleted = false ∧
          v.isExpired s.realTime = true) := by
  unfold fetchValidValue
  cases hf : vb.ht.unlocked_find key wd with
  | none => simp
  | some x =>
    cases hd : x.isDeleted <;> cases he : x.isExpired s.realTime <;> cases ht : x.isTempItem <;>
      simp [hd, he, ht]

/-- `fetchValidValue` unlocks nothing and leaves the degraded-mode flag and
the restore batches alone. -/
theorem fetchValidValue_frame (s : Store) (vb : VBucket) (key : String) (wd : Bool) :
    List.filter Call.isUnlock (fetchValidValue s vb key wd).2.calls =
      List.filter Call.isUnlock s.calls ∧
    (fetchValidValue s vb key wd).2.degradedMode = s.degradedMode ∧
    (fetchValidValue s vb key wd).2.restore = s.restore := by
  unfold fetchValidValue
  cases hf : vb.ht.unlocked_find key wd with
  | none => simp
  | some x =>
    cases hd : x.isDeleted <;> cases he : x.isExpired s.realTime <;> cases ht : x.isTempItem <;>
      simp [hd, he, ht, queueDirty_unlockCalls, queueDirty_frame, Call.isUnlock,
        List.filter_append]

/-- The marks that `fetchValidValue` adds to the call log: none, or one for a
delete record. -/
theorem fetchValidValue_queueDirtyCalls (s : Store) (vb : VBucket) (key : String) (wd : Bool) :
    List.filter Call.isQueueDirty (fetchValidValue s vb key wd).2.calls =
      List.filter Call.isQueueDirty s.calls ∨
    ∃ seqno rowid, List.filter Call.isQueueDirty (fetchValidValue s vb key wd).2.calls =
      List.filter Call.isQueueDirty s.calls ++
        [Call.queueDirty key vb.id queue_op_del seqno rowid false] := by
  unfold fetchValidValue
  cases hf : vb.ht.unlocked_find key wd with
  | none => simp
  | some x =>
    cases hd : x.isDeleted <;> cases he : x.isExpired s.realTime <;> cases ht : x.isTempItem <;>
      simp [hd, he, ht, queueDirty_queueDirtyCalls, Call.isQueueDirty,
        queueDirty_tapBackfill_default, List.filter_append]

/-- When the state checks pass, `set` is `setApply` on the vbucket found. -/
theorem set_eq_setApply (s : Store) (itm : Item) (cookie : Nat) (force : Bool) (vb : VBucket)
    (hvb : getVBucket s itm.vbucketId = some vb) (hpass : passesStateChecks vb force) :
    set s itm cookie force = setApply s vb itm cookie := by
  unfold set
  rw [hvb]
  rcases hpass with h | ⟨hf, h | h⟩
  · simp [h]
  · simp [h, hf]
  · simp [h, hf]

/-- `processNeedMetaData` never reports success and marks at most an entry
into `queueDirty` for a delete record. -/
theorem processNeedMetaData_facts (s : Store) (vb : VBucket) (itm : Item) (cookie : Nat) :
    (processNeedMetaData s vb itm cookie).1 ≠ ENGINE_SUCCESS ∧
    (List.filter Call.isQueueDirty (processNeedMetaData s vb itm cookie).2.calls =
        List.filter Call.isQueueDirty s.calls ∨
      ∃ seqno rowid, List.filter Call.isQueueDirty (processNeedMetaData s vb itm cookie).2.calls =
        List.filter Call.isQueueDirty s.calls ++
          [Call.queueDirty itm.key vb.id queue_op_del seqno rowid false]) := by
  have hq := fetchValidValue_queueDirtyCalls s vb itm.key fetchValidValue_wantDeleted_default
  unfold processNeedMetaData
  rcases hfv : fetchValidValue s vb itm.key fetchValidValue_wantDeleted_default with ⟨v, s1⟩
  rw [hfv] at hq
  cases v with
  | none => exact ⟨by simp, hq⟩
  | some x =>
    cases hr : x.isResident
    · simpa [hr, List.filter_append, Call.isQueueDirty] using hq
    · simpa [hr] using hq

/-- C4. For an item that `set` applies to a vbucket passing the state checks,
the hash-table outcome is translated as listed, and an entry into
`queueDirty` for a set record (exactly one, with the item's key, vbucket,
seqno and the row id left by the hash table) is made if and only if the
result is `ENGINE_SUCCESS`; for the seven listed outcomes nothing at all is
queued when the result is not `ENGINE_SUCCESS`. -/
theorem set_outcome_mapping (s : Store) (itm : Item) (cookie : Nat) (force : Bool)
    (vb : VBucket) (hvb : getVBucket s itm.vbucketId = some vb)
    (hpass : passesStateChecks vb force) :
    ((vb.ht.set itm).1 = NOMEM → (set s itm cookie force).1 = ENGINE_ENOMEM) ∧
    ((vb.ht.set itm).1 = INVALID_CAS ∨ (vb.ht.set itm).1 = IS_LOCKED →
      (set s itm cookie force).1 = ENGINE_KEY_EEXISTS) ∧
    ((vb.ht.set itm).1 = INVALID_VBUCKET →
      (set s itm cookie force).1 = ENGINE_NOT_MY_VBUCKET) ∧
    ((vb.ht.set itm).1 = NOT_FOUND ∧ itm.cas ≠ 0 →
      (set s itm cookie force).1 = ENGINE_KEY_ENOENT) ∧
    (((vb.ht.set itm).1 = NOT_FOUND ∧ itm.cas = 0) ∨ (vb.ht.set itm).1 = WAS_CLEAN ∨
        (vb.ht.set itm).1 = WAS_DIRTY →
      (set s itm cookie force).1 = ENGINE_SUCCESS) ∧
    ((set s itm cookie force).1 = ENGINE_SUCCESS ↔
      (set s itm cookie force).2.queueDirtyCalls = s.queueDirtyCalls ++
        [Call.queueDirty itm.key itm.vbucketId queue_op_set itm.seqno (vb.ht.set itm).2
          queueDirty_tapBackfill_default]) ∧
    ((set s itm cookie force).1 ≠ ENGINE_SUCCESS →
      ∀ key vbid seqno rowid tb,
        Call.queueDirty key vbid queue_op_set seqno rowid tb ∈
            (set s itm cookie force).2.queueDirtyCalls →
        Call.queueDirty key vbid queue_op_set seqno rowid tb ∈ s.queueDirtyCalls) ∧
    ((vb.ht.set itm).1 ≠ NEED_METADATA → (set s itm cookie force).1 ≠ ENGINE_SUCCESS →
      (set s itm cookie force).2.queueDirtyCalls = s.queueDirtyCalls) := by
  rw [set_eq_setApply s itm cookie force vb hvb hpass]
  unfold setApply
  simp only [Store.queueDirtyCalls]
  cases h : (vb.ht.set itm).1
  case NEED_METADATA =>
    obtain ⟨h1, h2⟩ := processNeedMetaData_facts (s.log (Call.ht_set itm.vbucketId itm)) vb itm
      cookie
    simp only [Store.log_calls, List.filter_append] at h2
    have hnil : List.filter Call.isQueueDirty [Call.ht_set itm.vbucketId itm] = [] := rfl
    rw [hnil, List.append_nil] at h2
    refine ⟨by simp, by simp, by simp, by simp, by simp, ?_, ?_, by simp⟩
    · constructor
      · intro hs; exact absurd hs h1
      · intro hq
        rcases h2 with h2 | ⟨sq, r, h2⟩
        · rw [h2] at hq; simp at hq
        · rw [h2] at hq; simp at hq
    · intro _ key vbid seqno rowid tb hmem
      rcases h2 with h2 | ⟨sq, r, h2⟩
      · rw [h2] at hmem; exact hmem
      · rw [h2] at hmem; simpa using hmem
  all_goals
    by_cases hc : itm.cas = 0 <;>
    simp [h, hc, queueDirty_queueDirtyCalls, List.filter_append, Call.isQueueDirty]

/-- Witness for C4: a CAS-less `set` on an active vbucket whose hash table
answers `WAS_CLEAN`. -/
theorem set_outcome_mapping_witness :
    getVBucket
        (smallStore (some (vbucketZero vbucket_state_active
          (fixedHashTable WAS_CLEAN ADD_SUCCESS none false))) [] false)
        (itemK 0).vbucketId =
      some (vbucketZero vbucket_state_active (fixedHashTable WAS_CLEAN ADD_SUCCESS none false)) ∧
    passesStateChecks
      (vbucketZero vbucket_state_active (fixedHashTable WAS_CLEAN ADD_SUCCESS none false))
      false ∧
    (set (smallStore (some (vbucketZero vbucket_state_active
        (fixedHashTable WAS_CLEAN ADD_SUCCESS none false))) [] false) (itemK 0) 7 false).1 =
      ENGINE_SUCCESS :=
  ⟨rfl, Or.inl rfl,
    (set_outcome_mapping
      (smallStore (some (vbucketZero vbucket_state_active
        (fixedHashTable WAS_CLEAN ADD_SUCCESS none false))) [] false)
      (itemK 0) 7 false
      (vbucketZero vbucket_state_active (fixedHashTable WAS_CLEAN ADD_SUCCESS none false))
      rfl (Or.inl rfl)).2.2.2.2.1 (Or.inr (Or.inl rfl))⟩

/-- The requests of `queueDirty` come after those already logged. -/
theorem queueDirty_calls_extend (s : Store) (key : String) (vbid : Nat)
    (op : queue_operation) (seqno : Nat) (rowid : Int) (tb : Bool) :
    s.calls <+: (queueDirty s key vbid op seqno rowid tb).calls := by
  unfold queueDirty
  simp only [Store.log]
  split_ifs <;> (try split) <;> (try split_ifs) <;>
    simp only [List.append_assoc] <;> exact List.prefix_append _ _

/-- The requests of `fetchValidValue` come after those already logged, and
the vbucket map is left alone. -/
theorem fetchValidValue_calls_extend (s : Store) (vb : VBucket) (key : String) (wd : Bool) :
    s.calls <+: (fetchValidValue s vb key wd).2.calls ∧
    (fetchValidValue s vb key wd).2.vbuckets = s.vbuckets := by
  unfold fetchValidValue
  cases hf : vb.ht.unlocked_find key wd with
  | none => simp
  | some x =>
    cases hd : x.isDeleted <;> cases he : x.isExpired s.realTime <;> cases ht : x.isTempItem <;>
      simp [hd, he, ht, queueDirty_frame]
    refine List.IsPrefix.trans ?_ (queueDirty_calls_extend _ _ _ _ _ _ _)
    simp

/-- `setApply` begins with the `set` request to the hash table and leaves
the vbucket map, hence every wait list, alone. -/
theorem setApply_applies (s : Store) (vb : VBucket) (itm : Item) (cookie : Nat) :
    (s.calls ++ [Call.ht_set itm.vbucketId itm]) <+: (setApply s vb itm cookie).2.calls ∧
    (setApply s vb itm cookie).2.vbuckets = s.vbuckets := by
  unfold setApply
  have hq := fun (r : Int) => queueDirty_calls_extend (s.log (Call.ht_set itm.vbucketId itm))
    itm.key itm.vbucketId queue_op_set itm.seqno r queueDirty_tapBackfill_default
  have hf := fun (r : Int) => (queueDirty_frame (s.log (Call.ht_set itm.vbucketId itm))
    itm.key itm.vbucketId queue_op_set itm.seqno r queueDirty_tapBackfill_default).2.2
  simp only [Store.log_calls, Store.log_vbuckets] at hq hf
  cases h : (vb.ht.set itm).1
  case NEED_METADATA =>
    simp only [h]
    unfold processNeedMetaData
    have hp := fetchValidValue_calls_extend (s.log (Call.ht_set itm.vbucketId itm)) vb itm.key
      fetchValidValue_wantDeleted_default
    rcases hfv : fetchValidValue (s.log (Call.ht_set itm.vbucketId itm)) vb itm.key
      fetchValidValue_wantDeleted_default with ⟨v, s1⟩
    rw [hfv] at hp
    obtain ⟨hm, hv⟩ := hp
    simp only [Store.log_calls, Store.log_vbuckets] at hm hv
    cases v with
    | none => exact ⟨hm, hv⟩
    | some x =>
      simp only
      cases hr : x.isResident
      · simp only [hr, Bool.not_false, if_true, Store.log_calls, Store.log_vbuckets]
        exact ⟨hm.trans (List.prefix_append _ _), hv⟩
      · simp only [hr, Bool.not_true, Bool.false_eq_true, if_false]
        exact ⟨hm, hv⟩
  all_goals
    by_cases hc : itm.cas = 0 <;>
    simp [h, hc, hq, hf, List.prefix_refl]

/-- C5, counterexample. On a pending vbucket `set` with `force = true` does
not answer `ENGINE_EWOULDBLOCK`: it registers no cookie, applies the item to
the hash table and reports the translated outcome. -/
theorem set_pending_force_counterexample :
    getVBucket
        (smallStore (some (vbucketZero vbucket_state_pending
          (fixedHashTable WAS_CLEAN ADD_SUCCESS none false))) [] false)
        (itemK 0).vbucketId =
      some (vbucketZero vbucket_state_pending
        (fixedHashTable WAS_CLEAN ADD_SUCCESS none false)) ∧
    (vbucketZero vbucket_state_pending
        (fixedHashTable WAS_CLEAN ADD_SUCCESS none false)).state = vbucket_state_pending ∧
    (set (smallStore (some (vbucketZero vbucket_state_pending
        (fixedHashTable WAS_CLEAN ADD_SUCCESS none false))) [] false) (itemK 0) 7 true).1 =
      ENGINE_SUCCESS ∧
    (set (smallStore (some (vbucketZero vbucket_state_pending
        (fixedHashTable WAS_CLEAN ADD_SUCCESS none false))) [] false) (itemK 0) 7 true).1 ≠
      ENGINE_EWOULDBLOCK ∧
    (set (smallStore (some (vbucketZero vbucket_state_pending
        (fixedHashTable WAS_CLEAN ADD_SUCCESS none false))) [] false)
        (itemK 0) 7 true).2.hashTableCalls = [Call.ht_set 0 (itemK 0)] ∧
    (((set (smallStore (some (vbucketZero vbucket_state_pending
        (fixedHashTable WAS_CLEAN ADD_SUCCESS none false))) [] false)
        (itemK 0) 7 true).2.vbuckets 0).map fun b => b.pendingOps) = some [] := by
  refine ⟨rfl, rfl, ?_, ?_, ?_, ?_⟩ <;> decide

/-- C5, amended. On a pending vbucket `set` with `force = false` registers
the cookie and answers `ENGINE_EWOULDBLOCK` without any request to the hash
table and without queueing; with `force = true` it registers nothing and
applies the item to the hash table; on a missing or dead vbucket, or a
replica with `force = false`, it answers `ENGINE_NOT_MY_VBUCKET` without any
request. -/
theorem set_state_checks (s : Store) (itm : Item) (cookie : Nat) (force : Bool) :
    (∀ vb, getVBucket s itm.vbucketId = some vb → vb.state = vbucket_state_pending →
      force = false →
        (set s itm cookie force).1 = ENGINE_EWOULDBLOCK ∧
        (set s itm cookie force).2.calls = s.calls ∧
        (set s itm cookie force).2.vbuckets itm.vbucketId =
          some { vb with pendingOps := vb.pendingOps ++ [cookie] }) ∧
    (∀ vb, getVBucket s itm.vbucketId = some vb → vb.state = vbucket_state_pending →
      force = true →
        set s itm cookie force = setApply s vb itm cookie ∧
        (s.calls ++ [Call.ht_set itm.vbucketId itm]) <+: (set s itm cookie force).2.calls ∧
        (set s itm cookie force).2.vbuckets = s.vbuckets) ∧
    ((getVBucket s itm.vbucketId = none ∨
        ∃ vb, getVBucket s itm.vbucketId = some vb ∧
          (vb.state = vbucket_state_dead ∨
            (vb.state = vbucket_state_replica ∧ force = false))) →
        (set s itm cookie force).1 = ENGINE_NOT_MY_VBUCKET ∧
        (set s itm cookie force).2.calls = s.calls ∧
        (set s itm cookie force).2.vbuckets = s.vbuckets) := by
  refine ⟨?_, ?_, ?_⟩
  · intro vb hvb hp hf
    unfold set
    simp [hvb, hp, hf, VBucket.addPendingOp, Store.putVB]
  · intro vb hvb hp hf
    have he := set_eq_setApply s itm cookie force vb hvb (Or.inr ⟨hf, Or.inr hp⟩)
    rw [he]
    exact ⟨rfl, setApply_applies s vb itm cookie⟩
  · rintro (hn | ⟨vb, hvb, hd | ⟨hr, hf⟩⟩)
    · unfold set
      simp [hn, Store.incrNumNotMyVBuckets]
    · unfold set
      simp [hvb, hd, Store.incrNumNotMyVBuckets]
    · unfold set
      simp [hvb, hr, hf, Store.incrNumNotMyVBuckets]

/-- Witness for the amended C5: `set` without `force` on a pending vbucket. -/
theorem set_state_checks_witness :
    (set (smallStore (some (vbucketZero vbucket_state_pending
        (fixedHashTable WAS_CLEAN ADD_SUCCESS none false))) [] false) (itemK 0) 7 false).1 =
      ENGINE_EWOULDBLOCK ∧
    (set (smallStore (some (vbucketZero vbucket_state_pending
        (fixedHashTable WAS_CLEAN ADD_SUCCESS none false))) [] false) (itemK 0) 7 false).2.calls =
      [] :=
  ⟨((set_state_checks
      (smallStore (some (vbucketZero vbucket_state_pending
        (fixedHashTable WAS_CLEAN ADD_SUCCESS none false))) [] false)
      (itemK 0) 7 false).1 _ rfl rfl rfl).1,
   ((set_state_checks
      (smallStore (some (vbucketZero vbucket_state_pending
        (fixedHashTable WAS_CLEAN ADD_SUCCESS none false))) [] false)
      (itemK 0) 7 false).1 _ rfl rfl rfl).2.1⟩

/-- C7. `unlockKey` answers `ENGINE_SUCCESS` exactly when the vbucket is
active, `fetchValidValue` hands back a value (one that is found and is not a
live expired value), the value is locked at `currentTime` and its CAS is the
one supplied; exactly then it issues `unlock` on the value, and otherwise no
`unlock` is issued and the answer is `ENGINE_NOT_MY_VBUCKET` (vbucket missing
or not active), `ENGINE_TMPFAIL` (value handed back but not locked or with
another CAS, or no value in degraded mode) or `ENGINE_KEY_ENOENT` (no value,
not degraded). -/
theorem unlockKey_outcomes (s : Store) (key : String) (vbucket : Nat) (cas : Nat)
    (currentTime : Nat) :
    ((unlockKey s key vbucket cas currentTime).1 = ENGINE_SUCCESS ↔
      ∃ vb v, s.vbuckets vbucket = some vb ∧ vb.state = vbucket_state_active ∧
        vb.ht.unlocked_find key fetchValidValue_wantDeleted_default = some v ∧
        (v.isDeleted = true ∨ v.isExpired s.realTime = false) ∧
        v.isLocked currentTime = true ∧ v.getCas = cas) ∧
    ((unlockKey s key vbucket cas currentTime).1 = ENGINE_SUCCESS →
      (unlockKey s key vbucket cas currentTime).2.unlockCalls =
        s.unlockCalls ++ [Call.sv_unlock vbucket key]) ∧
    ((unlockKey s key vbucket cas currentTime).1 ≠ ENGINE_SUCCESS →
      (unlockKey s key vbucket cas currentTime).2.unlockCalls = s.unlockCalls) ∧
    ((s.vbuckets vbucket = none ∨
        ∃ vb, s.vbuckets vbucket = some vb ∧ vb.state ≠ vbucket_state_active) →
      (unlockKey s key vbucket cas currentTime).1 = ENGINE_NOT_MY_VBUCKET) ∧
    (∀ vb, s.vbuckets vbucket = some vb → vb.state = vbucket_state_active →
      (∀ v, (fetchValidValue s vb key fetchValidValue_wantDeleted_default).1 = some v →
        ¬ (v.isLocked currentTime = true ∧ v.getCas = cas) →
        (unlockKey s key vbucket cas currentTime).1 = ENGINE_TMPFAIL) ∧
      ((fetchValidValue s vb key fetchValidValue_wantDeleted_default).1 = none →
        s.degradedMode = true →
        (unlockKey s key vbucket cas currentTime).1 = ENGINE_TMPFAIL) ∧
      ((fetchValidValue s vb key fetchValidValue_wantDeleted_default).1 = none →
        s.degradedMode = false →
        (unlockKey s key vbucket cas currentTime).1 = ENGINE_KEY_ENOENT)) := by
  cases hvb : s.vbuckets vbucket with
  | none =>
    have heq : unlockKey s key vbucket cas currentTime =
        (ENGINE_NOT_MY_VBUCKET, s.incrNumNotMyVBuckets) := by
      unfold unlockKey getVBucketInState
      simp [hvb]
    rw [heq]
    simp [Store.incrNumNotMyVBuckets, Store.unlockCalls]
  | some vb =>
    by_cases ha : vb.state = vbucket_state_active
    · have hfr := fetchValidValue_frame s vb key fetchValidValue_wantDeleted_default
      have hres := fetchValidValue_result s vb key fetchValidValue_wantDeleted_default
      rcases hfv : fetchValidValue s vb key fetchValidValue_wantDeleted_default with ⟨v, s1⟩
      rw [hfv] at hfr hres
      obtain ⟨hu, hdeg, _⟩ := hfr
      simp only at hu hdeg hres
      cases v with
      | none =>
        have hno : ∀ v, ¬ (vb.ht.unlocked_find key fetchValidValue_wantDeleted_default = some v ∧
            (v.isDeleted = true ∨ v.isExpired s.realTime = false)) := by
          intro v hv
          have := (hres v).2 hv
          simp at this
        cases hd : s.degradedMode with
        | true =>
          have heq : unlockKey s key vbucket cas currentTime = (ENGINE_TMPFAIL, s1) := by
            unfold unlockKey getVBucketInState
            simp [hvb, ha, hfv, hdeg, hd]
          rw [heq]
          refine ⟨⟨fun h => by simp at h, ?_⟩, fun h => by simp at h,
            fun _ => by simpa [Store.unlockCalls] using hu, ?_, ?_⟩
          · rintro ⟨vb1, v, hv1, _, hf, hx, _, _⟩
            cases hv1
            exact absurd ⟨hf, hx⟩ (hno v)
          · rintro (h | ⟨vb1, hv1, hn⟩)
            · simp at h
            · cases hv1; exact absurd ha hn
          · intro vb1 hv1 _
            cases hv1
            simp [hfv]
        | false =>
          have heq : unlockKey s key vbucket cas currentTime = (ENGINE_KEY_ENOENT, s1) := by
            unfold unlockKey getVBucketInState
            simp [hvb, ha, hfv, hdeg, hd]
          rw [heq]
          refine ⟨⟨fun h => by simp at h, ?_⟩, fun h => by simp at h,
            fun _ => by simpa [Store.unlockCalls] using hu, ?_, ?_⟩
          · rintro ⟨vb1, v, hv1, _, hf, hx, _, _⟩
            cases hv1
            exact absurd ⟨hf, hx⟩ (hno v)
          · rintro (h | ⟨vb1, hv1, hn⟩)
            · simp at h
            · cases hv1; exact absurd ha hn
          · intro vb1 hv1 _
            cases hv1
            simp [hfv]
      | some x =>
        have hx := (hres x).1 rfl
        by_cases hl : x.isLocked currentTime = true ∧ x.getCas = cas
        · have heq : unlockKey s key vbucket cas currentTime =
              (ENGINE_SUCCESS, s1.log (Call.sv_unlock vbucket key)) := by
            unfold unlockKey getVBucketInState
            simp [hvb, ha, hfv, hl]
          rw [heq]
          refine ⟨⟨fun _ => ⟨vb, x, rfl, ha, hx.1, hx.2, hl.1, hl.2⟩, fun _ => rfl⟩, ?_,
            fun h => absurd rfl h, ?_, ?_⟩
          · intro _
            simp [Store.unlockCalls, hu, List.filter_append, Call.isUnlock]
          · rintro (h | ⟨vb1, hv1, hn⟩)
            · simp at h
            · cases hv1; exact absurd ha hn
          · intro vb1 hv1 _
            cases hv1
            refine ⟨?_, by simp [hfv], by simp [hfv]⟩
            intro v hv hnl
            rw [hfv] at hv
            cases hv
            exact absurd hl hnl
        · have heq : unlockKey s key vbucket cas currentTime = (ENGINE_TMPFAIL, s1) := by
            unfold unlockKey getVBucketInState
            simp only [hvb, ha, if_true, hfv]
            rw [if_neg hl]
          rw [heq]
          refine ⟨⟨fun h => by simp at h, ?_⟩, fun h => by simp at h,
            fun _ => by simpa [Store.unlockCalls] using hu, ?_, ?_⟩
          · rintro ⟨vb1, v, hv1, _, hf, _, h5, h6⟩
            cases hv1
            rw [hx.1] at hf
            cases hf
            exact absurd ⟨h5, h6⟩ hl
          · rintro (h | ⟨vb1, hv1, hn⟩)
            · simp at h
            · cases hv1; exact absurd ha hn
          · intro vb1 hv1 _
            cases hv1
            simp [hfv]
    · have heq : unlockKey s key vbucket cas currentTime =
          (ENGINE_NOT_MY_VBUCKET, s.incrNumNotMyVBuckets) := by
        unfold unlockKey getVBucketInState
        simp [hvb, ha]
      rw [heq]
      refine ⟨⟨fun h => by simp at h, ?_⟩, fun h => by simp at h,
        fun _ => by simp [Store.unlockCalls, Store.incrNumNotMyVBuckets], fun _ => rfl, ?_⟩
      · rintro ⟨vb1, v, hv1, h2, _⟩
        cases hv1; exact absurd h2 ha
      · intro vb1 hv1 h2
        cases hv1; exact absurd h2 ha

/-- Witness for C7: unlocking a locked value with its own CAS on an active
vbucket succeeds. -/
theorem unlockKey_outcomes_witness :
    (unlockKey
        (smallStore (some (vbucketZero vbucket_state_active
          (fixedHashTable WAS_CLEAN ADD_SUCCESS (some lockedValue) false))) [] false)
        "k" 0 5 100).1 = ENGINE_SUCCESS :=
  (unlockKey_outcomes
    (smallStore (some (vbucketZero vbucket_state_active
      (fixedHashTable WAS_CLEAN ADD_SUCCESS (some lockedValue) false))) [] false)
    "k" 0 5 100).1.2
    ⟨vbucketZero vbucket_state_active
        (fixedHashTable WAS_CLEAN ADD_SUCCESS (some lockedValue) false),
      lockedValue, rfl, rfl, rfl, Or.inr rfl, rfl, rfl⟩

/-- When the state checks pass, `deleteItem` is `deleteItemApply` on the
vbucket found. -/
theorem deleteItem_eq_deleteItemApply (s : Store) (key : String) (seqno cas vbucket cookie : Nat)
    (force use_meta : Bool) (vb : VBucket)
    (hvb : getVBucket s vbucket = some vb) (hpass : passesStateChecks vb force) :
    deleteItem s key seqno cas vbucket cookie force use_meta =
      deleteItemApply s vb key seqno cas vbucket use_meta := by
  unfold deleteItem
  rw [hvb]
  rcases hpass with h | ⟨hf, h | h⟩
  · simp [h]
  · simp [h, hf]
  · simp [h, hf]

/-- Membership after `std::set::insert`. -/
theorem Restore.mem_insertDeleted (r : Restore) (key k : String) :
    k ∈ (r.insertDeleted key).itemsDeleted ↔ k = key ∨ k ∈ r.itemsDeleted := by
  unfold Restore.insertDeleted
  split_ifs with h
  · constructor
    · intro hk; exact Or.inr hk
    · rintro (rfl | hk)
      · exact h
      · exact hk
  · simp

/-- C8. For a key that the hash table of a vbucket passing the state checks
does not hold: outside degraded mode `deleteItem` answers
`ENGINE_KEY_ENOENT`, makes no request at all (so queues nothing) and leaves
`restore.itemsDeleted` as it was; in degraded mode the key is in
`restore.itemsDeleted` afterwards, next to the keys that were there. -/
theorem deleteItem_not_found (s : Store) (key : String) (seqno cas vbucket cookie : Nat)
    (force use_meta : Bool) (vb : VBucket)
    (hvb : getVBucket s vbucket = some vb) (hpass : passesStateChecks vb force)
    (hfind : vb.ht.unlocked_find key use_meta = none) :
    (s.degradedMode = false →
      (deleteItem s key seqno cas vbucket cookie force use_meta).1 = ENGINE_KEY_ENOENT ∧
      (deleteItem s key seqno cas vbucket cookie force use_meta).2.calls = s.calls ∧
      (deleteItem s key seqno cas vbucket cookie force use_meta).2.queueDirtyCalls =
        s.queueDirtyCalls ∧
      (deleteItem s key seqno cas vbucket cookie force use_meta).2.restore.itemsDeleted =
        s.restore.itemsDeleted) ∧
    (s.degradedMode = true →
      ∀ k, k ∈ (deleteItem s key seqno cas vbucket cookie force use_meta).2.restore.itemsDeleted ↔
        k = key ∨ k ∈ s.restore.itemsDeleted) := by
  rw [deleteItem_eq_deleteItemApply s key seqno cas vbucket cookie force use_meta vb hvb hpass]
  unfold deleteItemApply
  constructor
  · intro hd
    simp [hfind, hd]
  · intro hd k
    simp only [hfind, hd, Option.isNone_none, Bool.true_eq_false, and_false, if_false, if_true]
    rw [← Restore.mem_insertDeleted]
    split_ifs <;> simp [(queueDirty_frame _ _ _ _ _ _ _).1]

/-- Witness for C8: deleting an absent key from an active vbucket in
degraded mode. -/
theorem deleteItem_not_found_witness :
    (smallStore (some (vbucketZero vbucket_state_active
        (fixedHashTable WAS_CLEAN ADD_SUCCESS none false))) [] true).degradedMode = true ∧
    ("k" ∈ (deleteItem
        (smallStore (some (vbucketZero vbucket_state_active
          (fixedHashTable WAS_CLEAN ADD_SUCCESS none false))) [] true)
        "k" 0 0 0 7 false false).2.restore.itemsDeleted ↔
      "k" = "k" ∨ "k" ∈ (smallStore (some (vbucketZero vbucket_state_active
        (fixedHashTable WAS_CLEAN ADD_SUCCESS none false))) [] true).restore.itemsDeleted) :=
  ⟨rfl,
    (deleteItem_not_found
      (smallStore (some (vbucketZero vbucket_state_active
        (fixedHashTable WAS_CLEAN ADD_SUCCESS none false))) [] true)
      "k" 0 0 0 7 false false
      (vbucketZero vbucket_state_active (fixedHashTable WAS_CLEAN ADD_SUCCESS none false))
      rfl (Or.inl rfl) rfl).2 rfl "k"⟩

/-- C9, counterexample. For an item whose key is in `restore.itemsDeleted`
but whose vbucket does not exist, `restoreItem` returns `-1`, not `1`. -/
theorem restoreItem_missing_vbucket_counterexample :
    (itemK 0).key ∈ (smallStore none ["k"] true).restore.itemsDeleted ∧
    (restoreItem (smallStore none ["k"] true) (itemK 0) queue_op_set).1 = -1 ∧
    (restoreItem (smallStore none ["k"] true) (itemK 0) queue_op_set).1 ≠ 1 := by
  refine ⟨?_, ?_, ?_⟩ <;> decide

/-- C9, amended. For an item whose key is in `restore.itemsDeleted` and whose
vbucket exists, `restoreItem` returns `1` and changes nothing (no request to
the hash table, no change to `restore.items`); when the vbucket does not
exist it returns `-1` and changes nothing; and whenever it returns `0`,
exactly one record for the item's key, vbucket and operation has been
appended to the batch `restore.items[vbid]`, the other batches being left as
they were. -/
theorem restoreItem_outcomes (s : Store) (itm : Item) (op : queue_operation) :
    (∀ vb, s.vbuckets itm.vbucketId = some vb → itm.key ∈ s.restore.itemsDeleted →
      restoreItem s itm op = (1, s)) ∧
    (s.vbuckets itm.vbucketId = none → restoreItem s itm op = (-1, s)) ∧
    ((restoreItem s itm op).1 = 0 →
      (restoreItem s itm op).2.restore.items itm.vbucketId =
        some ((s.restore.items itm.vbucketId).getD [] ++
          [{ key := itm.key, vbucketId := itm.vbucketId, op := op,
             vbucketVersion := s.bucketVersions itm.vbucketId,
             rowId := none, seqno := none }]) ∧
      (∀ i, i ≠ itm.vbucketId →
        (restoreItem s itm op).2.restore.items i = s.restore.items i) ∧
      (restoreItem s itm op).2.restore.itemsDeleted = s.restore.itemsDeleted) := by
  refine ⟨?_, ?_, ?_⟩
  · intro vb hvb hk
    unfold restoreItem
    simp [hvb, hk]
  · intro hvb
    unfold restoreItem
    simp [hvb]
  · cases hvb : s.vbuckets itm.vbucketId with
    | none => simp [restoreItem, hvb]
    | some vb =>
      by_cases hk : itm.key ∈ s.restore.itemsDeleted
      · simp [restoreItem, hvb, hk]
      · cases hr : vb.ht.unlocked_restoreItem itm op
        · simp [restoreItem, hvb, hk, hr]
        · cases hi : s.restore.items itm.vbucketId <;>
            simp [restoreItem, hvb, hk, hr, hi] <;> (intro i hne; simp [hne])

/-- Witness for the amended C9: a restore insert for a key deleted during
restore, in an existing vbucket. -/
theorem restoreItem_outcomes_witness :
    restoreItem
        (smallStore (some (vbucketZero vbucket_state_active
          (fixedHashTable WAS_CLEAN ADD_SUCCESS none true))) ["k"] true)
        (itemK 0) queue_op_set =
      (1, smallStore (some (vbucketZero vbucket_state_active
          (fixedHashTable WAS_CLEAN ADD_SUCCESS none true))) ["k"] true) :=
  (restoreItem_outcomes
    (smallStore (some (vbucketZero vbucket_state_active
      (fixedHashTable WAS_CLEAN ADD_SUCCESS none true))) ["k"] true)
    (itemK 0) queue_op_set).1 _ rfl (by decide)

/-! ## Theorems: the flusher -/

/-- C10. A `queue_op_set` record whose version differs from the current
version of its vbucket is taken off the queue and dropped: `flushOne` returns
`0`, makes no request at all (so no `set`/`del` reaches the backing store),
leaves the reject queue and the transaction context (so its uncommitted
items) as they were, and only adjusts `memOverhead` and `flusher_todo`. A
`queue_op_del` record is handed to `flushOneDelOrSet` whatever its version. -/
theorem flushOne_version_check (s : Store) (qi : QueuedItem)
    (rest rejectQueue : List QueuedItem) :
    (qi.op = queue_op_set → qi.vbucketVersion ≠ s.bucketVersions qi.vbucketId →
      flushOne s (qi :: rest) rejectQueue =
        Except.ok (0,
          { s with stats := { s.stats with
              memOverhead := s.stats.memOverhead - (s.sizeofQueuedItem : Int),
              flusher_todo := s.stats.flusher_todo - 1 } },
          rest, rejectQueue)) ∧
    (qi.op = queue_op_del →
      flushOne s (qi :: rest) rejectQueue =
        match flushOneDelOrSet
            { s with stats := { s.stats with
                memOverhead := s.stats.memOverhead - (s.sizeofQueuedItem : Int) } }
            qi rejectQueue with
        | Except.ok (rv, s2, rq1) =>
          Except.ok (rv, { s2 with stats := { s2.stats with
                              flusher_todo := s2.stats.flusher_todo - 1 } }, rest, rq1)
        | Except.error f => Except.error f) := by
  constructor
  · intro hop hver
    unfold flushOne
    simp [hop, hver]
  · intro hop
    unfold flushOne
    simp only [hop]

/-- Witness for C10: a set record tagged with version 7 while its vbucket is
at version 8. -/
theorem flushOne_version_check_witness :
    flushOne
        (smallStore (some (vbucketZero vbucket_state_active
          (fixedHashTable WAS_CLEAN ADD_SUCCESS (some plainValue) false))) [] false)
        (recordK queue_op_set 7 :: []) [] =
      Except.ok (0,
        { smallStore (some (vbucketZero vbucket_state_active
            (fixedHashTable WAS_CLEAN ADD_SUCCESS (some plainValue) false))) [] false with
          stats := { zeroStats with memOverhead := 0 - 16, flusher_todo := 0 - 1 } },
        [], []) :=
  (flushOne_version_check
    (smallStore (some (vbucketZero vbucket_state_active
      (fixedHashTable WAS_CLEAN ADD_SUCCESS (some plainValue) false))) [] false)
    (recordK queue_op_set 7) [] []).1 rfl (by decide)

/-- A delete record tagged with a stale version still reaches the backing
store: for a tombstone with a row id, one `del` is submitted. -/
theorem flushOne_stale_del_submits :
    (match flushOne
        (smallStore (some (vbucketZero vbucket_state_active
          (fixedHashTable WAS_CLEAN ADD_SUCCESS (some tombstone) false))) [] false)
        (recordK queue_op_del 7 :: []) [] with
      | Except.ok (_, s1, _, _) => s1.kvStoreWrites.length
      | Except.error _ => 0) = 1 := by
  decide

/-! ## Theorems: vbucket life cycle -/

/-- C11, counterexample. From version `0xFFFE` the version computed on
recreation and on reset is `0`, not `(0xFFFE + 1) mod 2^16 = 0xFFFF`. -/
theorem vbucket_version_wrap_counterexample :
    ((smallStore none [] false).setBucketVersion 0 65534).bucketVersions 0 = 65534 ∧
    (65534 + 1) % 2 ^ 16 = 65535 ∧
    (setVBucketState ((smallStore none [] false).setBucketVersion 0 65534)
        (vbucketZero vbucket_state_dead (fixedHashTable WAS_CLEAN ADD_SUCCESS none false))
        0 vbucket_state_active).bucketVersions 0 = 0 ∧
    (resetVBucket
        ((smallStore (some (vbucketZero vbucket_state_active
          (fixedHashTable WAS_CLEAN ADD_SUCCESS none false))) [] false).setBucketVersion
          0 65534) 0).2.bucketVersions 0 = 0 := by
  refine ⟨?_, ?_, ?_, ?_⟩ <;> decide

/-- C11, amended. The new version computed when a vbucket is recreated
(`setVBucketState` on a missing vbucket) or reset (`resetVBucket` on a
vbucket that holds items, for a backend that uses versions) is `0` when the
old version is `0xFFFE` and `(v + 1) mod 2^16` otherwise. -/
theorem vbucket_version_bump (s : Store) (fresh : VBucket) (vbid : Nat)
    (target : vbucket_state_t) :
    (s.vbuckets vbid = none →
      (setVBucketState s fresh vbid target).bucketVersions vbid =
        if s.bucketVersions vbid = 65534 then 0 else (s.bucketVersions vbid + 1) % 2 ^ 16) ∧
    (∀ vb, s.vbuckets vbid = some vb → vb.ht.getNumItems ≠ 0 →
      s.backend ≠ "couchdb" → s.backend ≠ "mccouch" →
      (resetVBucket s vbid).2.bucketVersions vbid =
        if s.bucketVersions vbid = 65534 then 0 else (s.bucketVersions vbid + 1) % 2 ^ 16) := by
  constructor
  · intro hvb
    unfold setVBucketState
    simp only [hvb]
    by_cases ht : target = vbucket_state_active <;>
      simp [ht, Store.setBucketVersion, Store.putVB, nextVBucketVersion]
  · intro vb hvb hn hc hm
    unfold resetVBucket
    simp [hvb, hn, hc, hm, Store.setBucketVersion, nextVBucketVersion]

/-- Witness for the amended C11: recreating vbucket 0 from version 8. -/
theorem vbucket_version_bump_witness :
    (smallStore none [] false).vbuckets 0 = none ∧
    (setVBucketState (smallStore none [] false)
        (vbucketZero vbucket_state_dead (fixedHashTable WAS_CLEAN ADD_SUCCESS none false))
        0 vbucket_state_active).bucketVersions 0 =
      if (smallStore none [] false).bucketVersions 0 = 65534 then 0
      else ((smallStore none [] false).bucketVersions 0 + 1) % 2 ^ 16 :=
  ⟨rfl, (vbucket_version_bump (smallStore none [] false)
    (vbucketZero vbucket_state_dead (fixedHashTable WAS_CLEAN ADD_SUCCESS none false))
    0 vbucket_state_active).1 rfl⟩

/-- C12, counterexample. `resetVBucket` on an existing vbucket returns `true`
without changing the version when the backend is `mccouch`, and also, for a
backend that uses versions, when the hash table holds no item. -/
theorem resetVBucket_no_bump_counterexample :
    (resetVBucket
        { smallStore (some (vbucketZero vbucket_state_active
            (fixedHashTable WAS_CLEAN ADD_SUCCESS none false))) [] false with
          backend := "mccouch" } 0).1 = true ∧
    (resetVBucket
        { smallStore (some (vbucketZero vbucket_state_active
            (fixedHashTable WAS_CLEAN ADD_SUCCESS none false))) [] false with
          backend := "mccouch" } 0).2.bucketVersions 0 = 8 ∧
    (smallStore (some (vbucketZero vbucket_state_active
        { fixedHashTable WAS_CLEAN ADD_SUCCESS none false with getNumItems := 0 }))
        [] false).backend = "sqlite" ∧
    (resetVBucket
        (smallStore (some (vbucketZero vbucket_state_active
          { fixedHashTable WAS_CLEAN ADD_SUCCESS none false with getNumItems := 0 }))
          [] false) 0).1 = true ∧
    (resetVBucket
        (smallStore (some (vbucketZero vbucket_state_active
          { fixedHashTable WAS_CLEAN ADD_SUCCESS none false with getNumItems := 0 }))
          [] false) 0).2.bucketVersions 0 = 8 ∧
    nextVBucketVersion 8 = 9 := by
  refine ⟨?_, ?_, ?_, ?_, ?_, ?_⟩ <;> decide

/-- C12, amended. For an existing vbucket whose hash table holds at least one
item: with a backend other than `couchdb` and `mccouch`, `resetVBucket`
returns `true` and sets the version of that vbucket to the bumped value, the
other versions being kept; with `couchdb` or `mccouch` it returns `true` and
keeps every version. For an existing vbucket whose hash table is empty it
returns `true` and changes nothing. When the vbucket does not exist it
returns `false` and changes nothing. -/
theorem resetVBucket_outcomes (s : Store) (vbid : Nat) :
    (∀ vb, s.vbuckets vbid = some vb → vb.ht.getNumItems ≠ 0 →
      (resetVBucket s vbid).1 = true ∧
      (s.backend ≠ "couchdb" ∧ s.backend ≠ "mccouch" →
        (resetVBucket s vbid).2.bucketVersions vbid =
            nextVBucketVersion (s.bucketVersions vbid) ∧
        ∀ i, i ≠ vbid → (resetVBucket s vbid).2.bucketVersions i = s.bucketVersions i) ∧
      (s.backend = "couchdb" ∨ s.backend = "mccouch" →
        ∀ i, (resetVBucket s vbid).2.bucketVersions i = s.bucketVersions i)) ∧
    (∀ vb, s.vbuckets vbid = some vb → vb.ht.getNumItems = 0 →
      resetVBucket s vbid = (true, s)) ∧
    (s.vbuckets vbid = none → resetVBucket s vbid = (false, s)) := by
  refine ⟨?_, ?_, ?_⟩
  · intro vb hvb hn
    unfold resetVBucket
    simp only [hvb, hn, if_false]
    refine ⟨by simp, ?_, ?_⟩
    · rintro ⟨hc, hm⟩
      simp only [hc, hm, or_false, if_false, Store.log_bucketVersions,
        Store.setBucketVersion, if_true, true_and]
      intro i hi
      simp [hi]
    · intro hb i
      simp only [hb, if_true, Store.log_bucketVersions, Store.setBucketVersion]
      split_ifs with h
      · rw [h]
      · rfl
  · intro vb hvb hn
    unfold resetVBucket
    simp [hvb, hn]
  · intro hvb
    unfold resetVBucket
    simp [hvb]

/-- Witness for the amended C12: resetting vbucket 0, which holds an item,
with the `sqlite` backend. -/
theorem resetVBucket_outcomes_witness :
    (resetVBucket (smallStore (some (vbucketZero vbucket_state_active
        (fixedHashTable WAS_CLEAN ADD_SUCCESS none false))) [] false) 0).1 = true ∧
    (resetVBucket (smallStore (some (vbucketZero vbucket_state_active
        (fixedHashTable WAS_CLEAN ADD_SUCCESS none false))) [] false) 0).2.bucketVersions 0 =
      nextVBucketVersion 8 :=
  ⟨((resetVBucket_outcomes (smallStore (some (vbucketZero vbucket_state_active
        (fixedHashTable WAS_CLEAN ADD_SUCCESS none false))) [] false) 0).1 _ rfl
        (by decide)).1,
   (((resetVBucket_outcomes (smallStore (some (vbucketZero vbucket_state_active
        (fixedHashTable WAS_CLEAN ADD_SUCCESS none false))) [] false) 0).1 _ rfl
        (by decide)).2.1 ⟨by decide, by decide⟩).1⟩

/-- For an existing vbucket, whatever its state and the target state,
`setVBucketState` sets the state, keeps the wait list and makes exactly two
requests: the state change and a low-priority snapshot. The test
`vb->getState() == vbucket_state_pending && to == vbucket_state_active` reads
the state after it has been set, so `notifyNotificationThread` is not among
them. -/
theorem setVBucketState_existing (s : Store) (fresh : VBucket) (vbid : Nat)
    (target : vbucket_state_t) (vb : VBucket) (hvb : s.vbuckets vbid = some vb) :
    (setVBucketState s fresh vbid target).vbuckets vbid = some { vb with state := target } ∧
    (setVBucketState s fresh vbid target).calls =
      s.calls ++ [Call.vb_setState vbid target, Call.scheduleVBSnapshot false] := by
  unfold setVBucketState
  simp only [hvb, VBucket.setState]
  cases target <;> simp [Store.putVB]

/-- C13, the code at the failing input. Vbucket 0 is pending with cookie 7 on
its wait list; `setVBucketState(0, vbucket_state_active)` makes it active,
keeps the cookie on the wait list and does not call
`notifyNotificationThread`. -/
theorem setVBucketState_pending_to_active_no_notification :
    (((setVBucketState
        (smallStore (some { vbucketZero vbucket_state_pending
            (fixedHashTable WAS_CLEAN ADD_SUCCESS none false) with pendingOps := [7] })
          [] false)
        (vbucketZero vbucket_state_dead (fixedHashTable WAS_CLEAN ADD_SUCCESS none false))
        0 vbucket_state_active).vbuckets 0).map fun b => (b.state, b.pendingOps)) =
      some (vbucket_state_active, [7]) ∧
    (setVBucketState
        (smallStore (some { vbucketZero vbucket_state_pending
            (fixedHashTable WAS_CLEAN ADD_SUCCESS none false) with pendingOps := [7] })
          [] false)
        (vbucketZero vbucket_state_dead (fixedHashTable WAS_CLEAN ADD_SUCCESS none false))
        0 vbucket_state_active).calls =
      [Call.vb_setState 0 vbucket_state_active, Call.scheduleVBSnapshot false] ∧
    Call.notifyNotificationThread ∉
      (setVBucketState
        (smallStore (some { vbucketZero vbucket_state_pending
            (fixedHashTable WAS_CLEAN ADD_SUCCESS none false) with pendingOps := [7] })
          [] false)
        (vbucketZero vbucket_state_dead (fixedHashTable WAS_CLEAN ADD_SUCCESS none false))
        0 vbucket_state_active).calls := by
  refine ⟨?_, ?_, ?_⟩ <;> decide

/-! ## Theorems: configuration listener -/

/-- What the listener does for the three `klog_` keys: `klog_max_log_size`
sets only the max log size, `klog_max_entry_ratio` only the max entry ratio,
and `klog_compactor_queue_cap` also sets the max entry ratio and leaves the
queue cap as it was. -/
theorem sizeValueChanged_klog_keys (s : Store) (v : Nat) :
    (EPStoreValueChangeListener.sizeValueChanged s "klog_max_log_size" v).mlogCompactorConfig =
      { s.mlogCompactorConfig with maxLogSize := v } ∧
    (EPStoreValueChangeListener.sizeValueChanged s "klog_max_entry_ratio"
        v).mlogCompactorConfig =
      { s.mlogCompactorConfig with maxEntryRatio := v } ∧
    (EPStoreValueChangeListener.sizeValueChanged s "klog_compactor_queue_cap"
        v).mlogCompactorConfig =
      { s.mlogCompactorConfig with maxEntryRatio := v } := by
  refine ⟨?_, ?_, ?_⟩ <;>
    simp [EPStoreValueChangeListener.sizeValueChanged,
      MutationLogCompactorConfig.setMaxLogSize, MutationLogCompactorConfig.setMaxEntryRatio]

/-- C17, the code at the failing input. With max entry ratio 0 and queue cap
0, a change of `klog_compactor_queue_cap` to 42 leaves the queue cap at 0 and
sets the max entry ratio to 42, whereas the constructor loads the same
configuration value into the queue cap. -/
theorem sizeValueChanged_queue_cap_sets_entry_ratio :
    (EPStoreValueChangeListener.sizeValueChanged (smallStore none [] false)
        "klog_compactor_queue_cap" 42).mlogCompactorConfig =
      { maxLogSize := 0, maxEntryRatio := 42, queueCap := 0, sleepTime := 0 } ∧
    (initCompactorConfig (smallStore none [] false).mlogCompactorConfig 0 0 42) =
      { maxLogSize := 0, maxEntryRatio := 0, queueCap := 42, sleepTime := 0 } := by
  refine ⟨?_, ?_⟩ <;> decide

/-! ## Theorems: commit, requeue and lazy expiry -/

/-- The commit loop with `n` failing attempts: its requests, its count of
failures, and what it leaves alone. -/
theorem commitLoop_effect (n : Nat) :
    ∀ s : Store,
      (TransactionContext.commitLoop n s).calls =
        s.calls ++ failedCommitAttempts n ++ [Call.kv_commit true] ∧
      (TransactionContext.commitLoop n s).stats.commitFailed = s.stats.commitFailed + n ∧
      (TransactionContext.commitLoop n s).stats.flusherCommits = s.stats.flusherCommits ∧
      (TransactionContext.commitLoop n s).tctx = s.tctx ∧
      (TransactionContext.commitLoop n s).kvCommits = s.kvCommits := by
  induction n with
  | zero =>
    intro s
    simp [TransactionContext.commitLoop, failedCommitAttempts, Store.log]
  | succ k ih =>
    intro s
    obtain ⟨h1, h2, h3, h4, h5⟩ := ih
      { (s.log (Call.kv_commit false)).log (Call.sleep 1) with
        stats := { ((s.log (Call.kv_commit false)).log (Call.sleep 1)).stats with
          commitFailed := ((s.log (Call.kv_commit false)).log (Call.sleep 1)).stats.commitFailed
            + 1 } }
    simp only [TransactionContext.commitLoop]
    refine ⟨?_, ?_, ?_, ?_, ?_⟩
    · rw [h1]; simp [failedCommitAttempts]
    · rw [h2]; simp; omega
    · rw [h3]; simp
    · rw [h4]; simp
    · rw [h5]; rfl

/-- C14. When `n` attempts of the backing store's `commit()` fail before one
goes through, `TransactionContext::commit` writes one COMMIT1, then makes the
`n` failing attempts (each followed by `sleep(1)`) and the successful one,
then writes one COMMIT2, and nothing else; `commitFailed` grows by `n`, and
it ends with `intxn = false`, no uncommitted item, `numUncommittedItems = 0`
and no transaction callback. -/
theorem commit_protocol (s : Store) (n : Nat) (hn : s.kvCommitFailures s.kvCommits = n) :
    (TransactionContext.commit s).calls =
      s.calls ++ [Call.mlog_commit1] ++ failedCommitAttempts n ++
        [Call.kv_commit true, Call.mlog_commit2] ∧
    (TransactionContext.commit s).stats.commitFailed = s.stats.commitFailed + n ∧
    (TransactionContext.commit s).tctx.intxn = false ∧
    (TransactionContext.commit s).tctx.uncommittedItems = [] ∧
    (TransactionContext.commit s).tctx.numUncommittedItems = 0 ∧
    (TransactionContext.commit s).tctx.transactionCallbacks = [] := by
  obtain ⟨h1, h2, _, _, _⟩ := commitLoop_effect n (s.log Call.mlog_commit1)
  unfold TransactionContext.commit
  simp only [Store.log_calls, Store.log_stats] at h1 h2
  have hn1 : (s.log Call.mlog_commit1).kvCommitFailures (s.log Call.mlog_commit1).kvCommits = n :=
    hn
  simp only [hn1]
  refine ⟨?_, ?_, by simp, by simp, by simp, by simp⟩
  · simp [h1]
  · simpa using h2

/-- Witness for C14: two failing attempts before the commit goes through. -/
theorem commit_protocol_witness :
    (TransactionContext.commit
        { smallStore none [] false with kvCommitFailures := fun _ => 2 }).calls =
      [Call.mlog_commit1, Call.kv_commit false, Call.sleep 1, Call.kv_commit false,
        Call.sleep 1, Call.kv_commit true, Call.mlog_commit2] ∧
    (TransactionContext.commit
        { smallStore none [] false with kvCommitFailures := fun _ => 2 }).stats.commitFailed =
      2 :=
  ⟨(commit_protocol { smallStore none [] false with kvCommitFailures := fun _ => 2 } 2 rfl).1,
   (commit_protocol { smallStore none [] false with kvCommitFailures := fun _ => 2 } 2 rfl).2.1⟩

/-- The requeue loop appends the rejects to `writing` and empties `rej`. -/
theorem requeueLoop_eq (rej : List QueuedItem) :
    ∀ writing : List QueuedItem, requeueLoop writing rej = (writing ++ rej, []) := by
  induction rej with
  | nil => intro writing; simp [requeueLoop]
  | cons x rest ih => intro writing; simp [requeueLoop, ih]

/-- C15, counterexample. With one record in `writing` and one reject, the
reject ends up behind the record that was in `writing`, not at the head. -/
theorem requeueRejectedItems_tail_counterexample :
    (requeueRejectedItems (smallStore none [] false) [recordK queue_op_set 8]
        [recordK queue_op_del 8]).2.1 =
      [recordK queue_op_set 8, recordK queue_op_del 8] ∧
    (requeueRejectedItems (smallStore none [] false) [recordK queue_op_set 8]
        [recordK queue_op_del 8]).2.1 ≠
      [recordK queue_op_del 8] ++ [recordK queue_op_set 8] := by
  refine ⟨?_, ?_⟩ <;> decide

/-- C15, amended. After `requeueRejectedItems` the reject queue is empty and
`writing` holds the items it held, in their order, followed by the rejected
items in their order: the rejects are pushed at the tail, none is lost or
duplicated. -/
theorem requeueRejectedItems_appends (s : Store) (writing rej : List QueuedItem) :
    (requeueRejectedItems s writing rej).2.1 = writing ++ rej ∧
    (requeueRejectedItems s writing rej).2.2 = [] := by
  unfold requeueRejectedItems
  simp [requeueLoop_eq]

/-- C21, counterexample. A tombstone whose row id is the pending marker `-2`
(not `-1`) and which is not a temp item: no `del` reaches the backing store;
the deletion callback is called directly (one `delItem` goes to the mutation
log and the tombstone is removed from the hash table). -/
theorem flushOneDelOrSet_pending_rowid_counterexample :
    pendingTombstone.getId = -2 ∧ pendingTombstone.isTempItem = false ∧
    pendingTombstone.isDeleted = true ∧
    (match flushOneDelOrSet
        (smallStore (some (vbucketZero vbucket_state_active
          (fixedHashTable WAS_CLEAN ADD_SUCCESS (some pendingTombstone) false))) [] false)
        (recordK queue_op_del 8) [] with
      | Except.ok (_, s1, _) =>
        some (s1.kvStoreWrites, s1.calls.count (Call.mlog_delItem 0 "k"),
          s1.calls.count (Call.ht_unlocked_del 0 "k"))
      | Except.error _ => none) = some ([], 1, 1) := by
  decide

/-- C21, amended. For a value that is deleted when flushed,
`flushOneDelOrSet` submits exactly one `del` (with the value's row id and the
current version of the vbucket) when the row id is positive or the value is a
temp item; otherwise, that is for a row id `≤ 0` (not only `-1`) on a value
that is not temp, it submits nothing and calls the deletion callback directly
with `0` rows affected, which logs one `delItem` to the mutation log. -/
theorem flushOneDelOrSet_deleted (s : Store) (qi : QueuedItem) (rq : List QueuedItem)
    (vb : VBucket) (v : StoredValue)
    (hvb : s.vbuckets qi.vbucketId = some vb)
    (hfind : vb.ht.unlocked_find qi.key true = some v)
    (hdel : v.isDeleted = true) :
    (v.getId > 0 ∨ v.isTempItem = true →
      match flushOneDelOrSet s qi rq with
      | Except.ok (_, s1, _) =>
        ∃ itm cb, s1.kvStoreWrites =
            s.kvStoreWrites ++ [Call.kv_del itm v.getId (s.bucketVersions qi.vbucketId) cb] ∧
          cb.queuedItem = qi ∧ itm.key = qi.key ∧
          s1.calls.count (Call.mlog_delItem qi.vbucketId qi.key) =
            s.calls.count (Call.mlog_delItem qi.vbucketId qi.key)
      | Except.error _ => False) ∧
    (¬ (v.getId > 0 ∨ v.isTempItem = true) →
      match flushOneDelOrSet s qi rq with
      | Except.ok (_, s1, _) =>
        s1.kvStoreWrites = s.kvStoreWrites ∧
        s1.calls.count (Call.mlog_delItem qi.vbucketId qi.key) =
          s.calls.count (Call.mlog_delItem qi.vbucketId qi.key) + 1
      | Except.error _ => False) := by
  constructor
  · intro hsub
    unfold flushOneDelOrSet fetchValidValue
    simp only [getVBucket, hvb, hfind, hdel]
    cases hdirty : v.isDirty <;> cases hpend : v.isPendingId <;>
      by_cases hcap : (s.currentTime : Int) - (s.queuedTimeOf qi : Int) > s.stats.queue_age_cap <;>
      by_cases hyoung : (s.currentTime : Int) - (v.getDataAge : Int) < s.stats.min_data_age <;>
      simp [flushExpiryStage, flushEligibilityStage, flushSubmitStage, hdel, hdirty, hpend,
        hcap, hyoung, hsub, Store.bumpOpsReject, hvb, Store.putVB, Store.kvStoreWrites,
        List.filter_append, Call.isKVStoreWrite, Store.log, TransactionContext.addCallback,
        List.count_append] <;>
      exact ⟨_, _, ⟨rfl, rfl⟩, rfl, rfl⟩
  · intro hsub
    unfold flushOneDelOrSet fetchValidValue
    simp only [getVBucket, hvb, hfind, hdel]
    cases hdeg : s.degradedMode <;>
    cases hdirty : v.isDirty <;> cases hpend : v.isPendingId <;>
      by_cases hcap : (s.currentTime : Int) - (s.queuedTimeOf qi : Int) > s.stats.queue_age_cap <;>
      by_cases hyoung : (s.currentTime : Int) - (v.getDataAge : Int) < s.stats.min_data_age <;>
      simp [flushExpiryStage, flushEligibilityStage, flushSubmitStage, hdel, hdirty, hpend,
        hcap, hyoung, hsub, Store.bumpOpsReject, hvb, Store.putVB, Store.kvStoreWrites,
        List.filter_append, Call.isKVStoreWrite, Store.log, TransactionContext.addCallback,
        List.count_append, PersistenceCallback.callbackDel, getVBucket, fetchValidValue,
        hfind, hdeg]

/-- Witness for C21 (amended): a tombstone with row id 3. -/
theorem flushOneDelOrSet_deleted_witness :
    match flushOneDelOrSet
        (smallStore (some (vbucketZero vbucket_state_active
          (fixedHashTable WAS_CLEAN ADD_SUCCESS (some tombstone) false))) [] false)
        (recordK queue_op_del 8) [] with
    | Except.ok (_, s1, _) =>
      ∃ itm cb, s1.kvStoreWrites =
          (smallStore (some (vbucketZero vbucket_state_active
            (fixedHashTable WAS_CLEAN ADD_SUCCESS (some tombstone) false))) []
            false).kvStoreWrites ++
            [Call.kv_del itm tombstone.getId
              ((smallStore (some (vbucketZero vbucket_state_active
                (fixedHashTable WAS_CLEAN ADD_SUCCESS (some tombstone) false))) []
                false).bucketVersions (recordK queue_op_del 8).vbucketId) cb] ∧
        cb.queuedItem = recordK queue_op_del 8 ∧ itm.key = (recordK queue_op_del 8).key ∧
        s1.calls.count (Call.mlog_delItem (recordK queue_op_del 8).vbucketId
            (recordK queue_op_del 8).key) =
          (smallStore (some (vbucketZero vbucket_state_active
            (fixedHashTable WAS_CLEAN ADD_SUCCESS (some tombstone) false))) []
            false).calls.count (Call.mlog_delItem (recordK queue_op_del 8).vbucketId
              (recordK queue_op_del 8).key)
    | Except.error _ => False :=
  (flushOneDelOrSet_deleted
    (smallStore (some (vbucketZero vbucket_state_active
      (fixedHashTable WAS_CLEAN ADD_SUCCESS (some tombstone) false))) [] false)
    (recordK queue_op_del 8) []
    (vbucketZero vbucket_state_active
      (fixedHashTable WAS_CLEAN ADD_SUCCESS (some tombstone) false))
    tombstone rfl rfl rfl).1 (Or.inl (by decide))

/-! ## Theorems: the batch loop of the flusher -/

/-- The copy loop of `flushSome` appends the input queue to the reject
queue. -/
theorem copyToRejectQueue_eq (q : List QueuedItem) :
    ∀ rq : List QueuedItem, copyToRejectQueue q rq = rq ++ q := by
  induction q with
  | nil => intro rq; simp [copyToRejectQueue]
  | cons x r ih => intro rq; simp [copyToRejectQueue, ih]

/-- The queue that `flushOne` leaves is the given one without its front
record, which is why the batch loop of `flushSome` goes on with the rest. -/
theorem flushOne_pops (s : Store) (qi : QueuedItem) (rest rq : List QueuedItem)
    (n : Int) (s1 : Store) (q1 rq1 : List QueuedItem)
    (h : flushOne s (qi :: rest) rq = Except.ok (n, s1, q1, rq1)) : q1 = rest := by
  unfold flushOne at h
  simp only at h
  split at h
  · simp only [Except.ok.injEq, Prod.mk.injEq] at h
    exact h.2.2.1.symm
  · cases h

/-- C23. When the backing store fails to begin a transaction, `flushSome`
returns `1` with the input queue empty and the reject queue followed by the
input queue in the same order; `beginFailed` grows by one, the only request
made is the failed `begin()`, and nothing that `flushOne` would touch
(`flusher_todo`, `memOverhead`, the uncommitted items) has changed. -/
theorem flushSome_begin_failed (s : Store) (q rq : List QueuedItem)
    (h : (TransactionContext.enter s).1 = false) :
    ∃ s1, flushSome s q rq = Except.ok (1, s1, [], rq ++ q) ∧
      s1.stats.beginFailed = s.stats.beginFailed + 1 ∧
      s1.calls = s.calls ++ [Call.kv_begin] ∧
      s1.stats.flusher_todo = s.stats.flusher_todo ∧
      s1.stats.memOverhead = s.stats.memOverhead ∧
      s1.tctx.uncommittedItems = s.tctx.uncommittedItems ∧
      s1.vbuckets = s.vbuckets := by
  have hin : s.tctx.intxn = false := by
    unfold TransactionContext.enter at h
    cases hi : s.tctx.intxn
    · rfl
    · simp [hi] at h
  have hb : s.kvBegin s.kvBegins = false := by
    unfold TransactionContext.enter at h
    simpa [hin] using h
  have heq : TransactionContext.enter s =
      (false, ({ s with tctx := { s.tctx with _remaining := s.tctx.txnSize, intxn := false },
                        kvBegins := s.kvBegins + 1 } : Store).log Call.kv_begin) := by
    unfold TransactionContext.enter
    simp [hin, hb]
  refine ⟨{ (({ s with tctx := { s.tctx with _remaining := s.tctx.txnSize, intxn := false },
                          kvBegins := s.kvBegins + 1 } : Store).log Call.kv_begin) with
              stats := { s.stats with beginFailed := s.stats.beginFailed + 1 } },
    ?_, ?_, ?_, ?_, ?_, ?_, ?_⟩
  · unfold flushSome
    rw [heq]
    simp only [copyToRejectQueue_eq]
    rfl
  all_goals simp [Store.log]

/-- Witness for C23: the backing store refuses to begin; two records move to
the reject queue behind the one already there. -/
theorem flushSome_begin_failed_witness :
    ∃ s1, flushSome (idleStore none false 10 (fun _ => false))
        [recordK queue_op_set 8, recordK queue_op_del 8] [recordK queue_op_set 7] =
        Except.ok (1, s1, [],
          [recordK queue_op_set 7] ++ [recordK queue_op_set 8, recordK queue_op_del 8]) ∧
      s1.stats.beginFailed = 0 + 1 ∧ s1.calls = [] ++ [Call.kv_begin] :=
  match flushSome_begin_failed (idleStore none false 10 (fun _ => false))
      [recordK queue_op_set 8, recordK queue_op_del 8] [recordK queue_op_set 7] rfl with
  | ⟨s1, h1, h2, h3, _⟩ => ⟨s1, h1, h2, h3⟩

/-! ## Theorems: chunked vbucket deletion -/

/-- When the head of the callback does not flag the last chunk, the range
list holds a range after the current one. -/
theorem chunkRange_not_last (cb : VBucketDeletionCallback) (h : cb.chunkRange.2 = false) :
    ∃ r, cb.range_list[cb.current_range + 1]? = some r := by
  unfold VBucketDeletionCallback.chunkRange at h
  cases hcur : cb.range_list[cb.current_range]? with
  | none => simp [hcur] at h
  | some r =>
    have hlt : cb.current_range < cb.range_list.length := by
      by_contra hge
      rw [List.getElem?_eq_none (by omega)] at hcur
      cases hcur
    by_cases hnext : cb.current_range + 1 < cb.range_list.length
    · exact ⟨cb.range_list[cb.current_range + 1], List.getElem?_eq_getElem hnext⟩
    · exfalso
      have hidx : cb.range_list.length - 1 = cb.current_range := by omega
      have hlast : cb.range_list.getLast? = some r := by
        rw [List.getLast?_eq_getElem?, hidx, hcur]
      simp [hcur, hlast] at h

/-- The head of the callback flags the last chunk when the iterator is at
`end()` or at the last range. -/
theorem chunkRange_last (cb : VBucketDeletionCallback)
    (h : cb.range_list[cb.current_range]? = none ∨
      cb.current_range + 1 = cb.range_list.length) :
    cb.chunkRange.2 = true := by
  cases hb : cb.chunkRange.2 with
  | true => rfl
  | false =>
    obtain ⟨r, hr⟩ := chunkRange_not_last cb hb
    have hlt : cb.current_range + 1 < cb.range_list.length := by
      by_contra hge
      rw [List.getElem?_eq_none (by omega)] at hr
      cases hr
    rcases h with h | h
    · rw [List.getElem?_eq_none_iff] at h
      omega
    · omega

/-- C24. After a successful chunk that is not the last one, with a valid
range and a size `old ≥ 0`: when the elapsed time `e = chunk_time / 1000` (in
whole milliseconds) is not zero, the next range size is
`max(100, ⌊old * chunk_del_threshold_time / e⌋)`, so at least 100; when `e`
is zero the size is unchanged. The callback returns `true`. -/
theorem deletion_callback_rescales (cb : VBucketDeletionCallback) (chunk_time : Nat)
    (hlast : cb.chunkRange.2 = false)
    (hvalid : cb.chunkRange.1.1 ≠ -1 ∧ cb.chunkRange.1.2 ≠ -1)
    (hold : 0 ≤ cb.chunk_del_range_size) :
    ∃ out, cb.callback vbucket_del_success chunk_time = Except.ok out ∧ out.rv = true ∧
      (chunk_time / 1000 ≠ 0 →
        out.cb.chunk_del_range_size =
          max 100 (cb.chunk_del_range_size * (cb.chunk_del_threshold_time : Int) /
            ((chunk_time / 1000 : Nat) : Int)) ∧
        100 ≤ out.cb.chunk_del_range_size) ∧
      (chunk_time / 1000 = 0 → out.cb.chunk_del_range_size = cb.chunk_del_range_size) := by
  obtain ⟨r, hr⟩ := chunkRange_not_last cb hlast
  have htd : Int.tdiv (cb.chunk_del_range_size * (cb.chunk_del_threshold_time : Int))
      ((chunk_time / 1000 : Nat) : Int) =
      cb.chunk_del_range_size * (cb.chunk_del_threshold_time : Int) /
        ((chunk_time / 1000 : Nat) : Int) :=
    Int.tdiv_eq_ediv (mul_nonneg hold (Int.ofNat_nonneg _)) (Int.ofNat_nonneg _)
  cases hres : cb.callback vbucket_del_success chunk_time with
  | error f =>
    unfold VBucketDeletionCallback.callback at hres
    simp [hlast, hr] at hres
  | ok out =>
    unfold VBucketDeletionCallback.callback at hres
    simp only [hlast, if_true, hr, Except.ok.injEq] at hres
    subst hres
    refine ⟨_, rfl, rfl, ?_, ?_⟩
    · intro he
      simp only [hvalid, he, ne_eq, not_false_eq_true, and_self, if_true, htd]
      exact ⟨trivial, le_max_left _ _⟩
    · intro he
      simp [he]

/-- Witness for C24: range size 100, threshold 500 ms, a chunk that took
250 ms (`chunk_time = 250000`): the next size is `max(100, 200) = 200`. -/
theorem deletion_callback_rescales_witness :
    ∃ out, threeRanges.callback vbucket_del_success 250000 = Except.ok out ∧ out.rv = true ∧
      (250000 / 1000 ≠ 0 →
        out.cb.chunk_del_range_size =
          max 100 (threeRanges.chunk_del_range_size *
            (threeRanges.chunk_del_threshold_time : Int) / ((250000 / 1000 : Nat) : Int)) ∧
        100 ≤ out.cb.chunk_del_range_size) ∧
      (250000 / 1000 = 0 →
        out.cb.chunk_del_range_size = threeRanges.chunk_del_range_size) :=
  deletion_callback_rescales threeRanges 250000 (by decide) (by decide) (by decide)

/-- C30. For every range list and every position of the iterator: when
`isLastChunk` is false the list holds a range after the current one, so the
bounds read after `++current_range` are those of an existing range and the
callback never dereferences `end()`; `isLastChunk` is true whenever the
iterator is at `end()` or at the last range. -/
theorem deletion_callback_next_range (cb : VBucketDeletionCallback)
    (result : vbucket_del_result) (chunk_time : Nat) :
    (cb.chunkRange.2 = false → ∃ r, cb.range_list[cb.current_range + 1]? = some r) ∧
    (cb.range_list[cb.current_range]? = none ∨ cb.current_range + 1 = cb.range_list.length →
      cb.chunkRange.2 = true) ∧
    (∃ out, cb.callback result chunk_time = Except.ok out) := by
  refine ⟨chunkRange_not_last cb, chunkRange_last cb, ?_⟩
  cases hres : cb.callback result chunk_time with
  | ok out => exact ⟨out, rfl⟩
  | error f =>
    exfalso
    unfold VBucketDeletionCallback.callback at hres
    cases result with
    | vbucket_del_success =>
      cases hb : cb.chunkRange.2 with
      | true => simp [hb] at hres
      | false =>
        obtain ⟨r, hr⟩ := chunkRange_not_last cb hb
        simp [hb, hr] at hres
    | vbucket_del_fail => simp at hres
    | vbucket_del_invalid => simp at hres

/-- Witness for C30: a list in which the first two ranges share the end point
of the last one flags the last chunk at once; and the three distinct ranges
have a successor of the first. -/
theorem deletion_callback_next_range_witness :
    ({ threeRanges with range_list := [(0, 300), (100, 300), (250, 300)] } :
        VBucketDeletionCallback).chunkRange.2 = true ∧
    ∃ r, threeRanges.range_list[threeRanges.current_range + 1]? = some r :=
  ⟨by decide,
    (deletion_callback_next_range threeRanges vbucket_del_success 250000).1 (by decide)⟩

/-! ## Theorems: loading items during warmup -/

/-- While every insert answers `NOMEM`, the retry loop of the loader is not
over after any number of passes: `retry` stays at `2`. -/
theorem insertLoop_nomem (itm : Item) (isPartial : Bool) (fuel : Nat) :
    ∀ (attempt : Nat) (lc : LoadStorageKVPairCallback) (s : Store),
      (∀ n, lc.insert n = NOMEM) →
      LoadStorageKVPairCallback.insertLoop itm isPartial 2 fuel attempt lc s = none := by
  induction fuel with
  | zero => intro attempt lc s _; rfl
  | succ k ih =>
    intro attempt lc s h
    unfold LoadStorageKVPairCallback.insertLoop LoadStorageKVPairCallback.insertOnce
    cases hp : lc.hasPurged
    · simp only [h attempt, hp]
      exact ih _ _ _ (fun n => h n)
    · simp only [h attempt, hp]
      exact ih _ _ _ h

/-- C25. Against the claim: with a hash table whose `insert` keeps answering
`NOMEM`, loading an item is not over after any number of passes through the
retry loop (the loop never gives the item up); already three passes make three
insert attempts and count `warmOOM` twice. -/
theorem load_retry_never_gives_up :
    (∀ fuel, LoadStorageKVPairCallback.callback fuel starvedLoader (smallStore none [] true)
        (vbucketZero vbucket_state_dead (fixedHashTable WAS_CLEAN ADD_SUCCESS none false))
        { getValue := some (itemK 0), getVBucketVersion := 8, isPartial := false } = none) ∧
    (match (starvedLoader.insertOnce (smallStore none [] true) (itemK 0) false 2 0) with
      | Except.ok (_, lc1, s1) =>
        match lc1.insertOnce s1 (itemK 0) false 2 1 with
        | Except.ok (_, lc2, s2) =>
          match lc2.insertOnce s2 (itemK 0) false 2 2 with
          | Except.ok (succeeded, _, s3) =>
            some (succeeded, s3.stats.warmOOM,
              s3.calls.count (Call.ht_insert 0 (itemK 0) true false))
          | Except.error _ => none
        | Except.error _ => none
      | Except.error _ => none) = some (false, 2, 3) := by
  constructor
  · intro fuel
    unfold LoadStorageKVPairCallback.callback
    simp only [LoadStorageKVPairCallback.isInvalidItem]
    rw [insertLoop_nomem (itemK 0) false fuel 0 starvedLoader _ (fun _ => rfl)]
    rfl
  · decide

/-! ## Theorems: `double` arithmetic -/

/-- No `double` is greater than itself. -/
theorem Double.gt_irrefl (a : Double) : Double.gt a a = false := by
  cases a with
  | finite neg m e => simp [Double.gt]
  | inf neg => cases neg <;> rfl
  | nan => rfl

/-- On finite `double`s, `>` is the strict order of the values they stand
for. -/
theorem Double.gt_finite_iff (a : Bool) (m1 : Nat) (e1 : Int) (b : Bool) (m2 : Nat)
    (e2 : Int) :
    Double.gt (Double.finite a m1 e1) (Double.finite b m2 e2) = true ↔
      (Double.finite b m2 e2).toRat < (Double.finite a m1 e1).toRat := by
  have hk : (0 : ℚ) < (2 : ℚ) ^ (min e1 e2) := zpow_pos (by norm_num) _
  have hscale : ∀ (x e : Int), min e1 e2 ≤ e →
      ((x * 2 ^ (e - min e1 e2).toNat : Int) : ℚ) * (2 : ℚ) ^ (min e1 e2) =
        (x : ℚ) * (2 : ℚ) ^ e := by
    intro x e he
    push_cast
    rw [mul_assoc, ← zpow_natCast, Int.toNat_of_nonneg (sub_nonneg.mpr he),
      ← zpow_add₀ (by norm_num : (2 : ℚ) ≠ 0), sub_add_cancel]
  simp only [Double.gt, Double.toRat, decide_eq_true_eq]
  rw [← hscale (Double.signed a m1) e1 (min_le_left _ _),
    ← hscale (Double.signed b m2) e2 (min_le_right _ _), mul_lt_mul_right hk, Int.cast_lt]

/-- `log2Fuel` with enough fuel brackets `n` between two powers of 2. -/
theorem Double.log2Fuel_spec (fuel : Nat) :
    ∀ n : Nat, n ≤ fuel → 1 ≤ n →
      2 ^ Double.log2Fuel fuel n ≤ n ∧ n < 2 ^ (Double.log2Fuel fuel n + 1) := by
  induction fuel with
  | zero => intro n h0 h1; omega
  | succ k ih =>
    intro n hn h1
    unfold Double.log2Fuel
    by_cases h2 : 2 ≤ n
    · simp only [h2, if_true]
      obtain ⟨ha, hb⟩ := ih (n / 2) (by omega) (by omega)
      constructor
      · calc 2 ^ (Double.log2Fuel k (n / 2) + 1) = 2 ^ Double.log2Fuel k (n / 2) * 2 := by
              ring
          _ ≤ (n / 2) * 2 := Nat.mul_le_mul_right 2 ha
          _ ≤ n := Nat.div_mul_le_self n 2
      · have h3 : n < (n / 2 + 1) * 2 := by omega
        calc n < (n / 2 + 1) * 2 := h3
          _ ≤ 2 ^ (Double.log2Fuel k (n / 2) + 1) * 2 := Nat.mul_le_mul_right 2 hb
          _ = 2 ^ (Double.log2Fuel k (n / 2) + 1 + 1) := by ring
    · simp only [h2, if_false]
      omega

/-- The exponent that `floorLog2` finds brackets `num / den`. -/
theorem Double.floorLog2_spec (num den : Nat) (hn : 1 ≤ num) (hd : 1 ≤ den) :
    (2 : ℚ) ^ Double.floorLog2 num den ≤ (num : ℚ) / (den : ℚ) ∧
    (num : ℚ) / (den : ℚ) < (2 : ℚ) ^ (Double.floorLog2 num den + 1) := by
  obtain ⟨na, nb⟩ := Double.log2Fuel_spec num num le_rfl hn
  obtain ⟨da, db⟩ := Double.log2Fuel_spec den den le_rfl hd
  have hdq : (0 : ℚ) < (den : ℚ) := by exact_mod_cast hd
  have two0 : (2 : ℚ) ≠ 0 := by norm_num
  have naq : (2 : ℚ) ^ (Double.log2Fuel num num : Int) ≤ (num : ℚ) := by
    rw [zpow_natCast]; exact_mod_cast na
  have nbq : (num : ℚ) < (2 : ℚ) ^ ((Double.log2Fuel num num : Int) + 1) := by
    rw [zpow_add_one₀ two0, zpow_natCast]
    have : (num : ℚ) < ((2 ^ (Double.log2Fuel num num + 1) : Nat) : ℚ) := by exact_mod_cast nb
    rw [pow_succ] at this
    exact_mod_cast this
  have daq : (2 : ℚ) ^ (Double.log2Fuel den den : Int) ≤ (den : ℚ) := by
    rw [zpow_natCast]; exact_mod_cast da
  have dbq : (den : ℚ) < (2 : ℚ) ^ ((Double.log2Fuel den den : Int) + 1) := by
    rw [zpow_add_one₀ two0, zpow_natCast]
    have : (den : ℚ) < ((2 ^ (Double.log2Fuel den den + 1) : Nat) : ℚ) := by exact_mod_cast db
    rw [pow_succ] at this
    exact_mod_cast this
  -- the test of `floorLog2` compares `num / den` with `2 ^ e0`
  have htest : ∀ e0 : Int,
      (den * 2 ^ e0.toNat ≤ num * 2 ^ (-e0).toNat ↔ (2 : ℚ) ^ e0 ≤ (num : ℚ) / (den : ℚ)) := by
    intro e0
    rw [le_div_iff₀ hdq]
    rcases le_total 0 e0 with h | h
    · have h2 : (-e0).toNat = 0 := Int.toNat_eq_zero.mpr (by omega)
      rw [h2, pow_zero, mul_one]
      have h3 : (2 : ℚ) ^ e0 = ((2 ^ e0.toNat : Nat) : ℚ) := by
        rw [Nat.cast_pow, ← zpow_natCast, Int.toNat_of_nonneg h]; norm_num
      rw [h3, mul_comm]
      exact_mod_cast Iff.rfl
    · have h2 : e0.toNat = 0 := Int.toNat_eq_zero.mpr h
      rw [h2, pow_zero, mul_one]
      have h3 : (2 : ℚ) ^ e0 = 1 / ((2 ^ (-e0).toNat : Nat) : ℚ) := by
        rw [Nat.cast_pow, ← zpow_natCast, Int.toNat_of_nonneg (by omega), zpow_neg]; norm_num
      have hpos : (0 : ℚ) < ((2 ^ (-e0).toNat : Nat) : ℚ) := by positivity
      rw [h3, div_mul_eq_mul_div, one_mul, div_le_iff₀ hpos]
      exact_mod_cast Iff.rfl
  unfold Double.floorLog2
  simp only []
  by_cases ht : den * 2 ^ ((Double.log2Fuel num num : Int) - (Double.log2Fuel den den : Int)).toNat ≤
      num * 2 ^ (-((Double.log2Fuel num num : Int) - (Double.log2Fuel den den : Int))).toNat
  · simp only [ht, if_true]
    refine ⟨(htest _).mp ht, ?_⟩
    rw [div_lt_iff₀ hdq]
    calc (num : ℚ) < (2 : ℚ) ^ ((Double.log2Fuel num num : Int) + 1) := nbq
      _ = (2 : ℚ) ^ ((Double.log2Fuel num num : Int) - (Double.log2Fuel den den : Int) + 1) *
            (2 : ℚ) ^ (Double.log2Fuel den den : Int) := by
          rw [← zpow_add₀ two0]; congr 1; ring
      _ ≤ (2 : ℚ) ^ ((Double.log2Fuel num num : Int) - (Double.log2Fuel den den : Int) + 1) *
            (den : ℚ) := by
          apply mul_le_mul_of_nonneg_left daq; positivity
  · simp only [ht, if_false]
    have hlt : (num : ℚ) / (den : ℚ) <
        (2 : ℚ) ^ ((Double.log2Fuel num num : Int) - (Double.log2Fuel den den : Int)) := by
      rw [← not_le]; exact fun h => ht ((htest _).mpr h)
    refine ⟨?_, by simpa using hlt⟩
    rw [le_div_iff₀ hdq]
    calc (2 : ℚ) ^ ((Double.log2Fuel num num : Int) - (Double.log2Fuel den den : Int) - 1) *
          (den : ℚ)
        ≤ (2 : ℚ) ^ ((Double.log2Fuel num num : Int) - (Double.log2Fuel den den : Int) - 1) *
            (2 : ℚ) ^ ((Double.log2Fuel den den : Int) + 1) := by
          apply mul_le_mul_of_nonneg_left (le_of_lt dbq); positivity
      _ = (2 : ℚ) ^ (Double.log2Fuel num num : Int) := by
          rw [← zpow_add₀ two0]; congr 1; ring
      _ ≤ (num : ℚ) := naq

/-- What `round` does with a positive value `x = num / den`: with the spacing
`2 ^ u` of the `double`s around `x` (`u = max (⌊log2 x⌋ - 52) (-1074)`), it
picks a multiple `m * 2 ^ u` at distance at most half a spacing from `x`, the
one with `m` even when two are equally near, and yields infinity exactly when
that multiple is `2 ^ 1024` or more. -/
theorem Double.round_spec (neg : Bool) (num den : Nat) (hn : 1 ≤ num) (hd : 1 ≤ den) :
    ∃ m : Nat,
      |(m : ℚ) - (num : ℚ) / (den : ℚ) /
          (2 : ℚ) ^ (max (Double.floorLog2 num den - 52) (-1074))| ≤ 1 / 2 ∧
      (|(m : ℚ) - (num : ℚ) / (den : ℚ) /
          (2 : ℚ) ^ (max (Double.floorLog2 num den - 52) (-1074))| = 1 / 2 → m % 2 = 0) ∧
      (((m : ℚ) * (2 : ℚ) ^ (max (Double.floorLog2 num den - 52) (-1074)) <
            (2 : ℚ) ^ (1024 : Int) ∧
          Double.round neg num den =
            Double.finite neg m (max (Double.floorLog2 num den - 52) (-1074))) ∨
        ((2 : ℚ) ^ (1024 : Int) ≤
            (m : ℚ) * (2 : ℚ) ^ (max (Double.floorLog2 num den - 52) (-1074)) ∧
          Double.round neg num den = Double.inf neg)) := by
  obtain ⟨hlo, hhi⟩ := Double.floorLog2_spec num den hn hd
  generalize hu : max (Double.floorLog2 num den - 52) (-1074) = u at *
  have hue : Double.floorLog2 num den + 1 - u ≤ 53 := by
    have := le_max_left (Double.floorLog2 num den - 52) (-1074)
    rw [hu] at this
    omega
  have two0 : (2 : ℚ) ≠ 0 := by norm_num
  have hupos : (0 : ℚ) < (2 : ℚ) ^ u := zpow_pos (by norm_num) _
  have hdq : (0 : ℚ) < (den : ℚ) := by exact_mod_cast hd
  -- the scaled value as a quotient of naturals
  have hy : ((num * 2 ^ (-u).toNat : Nat) : ℚ) / ((den * 2 ^ u.toNat : Nat) : ℚ) =
      (num : ℚ) / (den : ℚ) / (2 : ℚ) ^ u := by
    rcases le_total 0 u with h | h
    · have h2 : (-u).toNat = 0 := Int.toNat_eq_zero.mpr (by omega)
      have h3 : (2 : ℚ) ^ u = ((2 ^ u.toNat : Nat) : ℚ) := by
        rw [Nat.cast_pow, ← zpow_natCast, Int.toNat_of_nonneg h]; norm_num
      rw [h2, pow_zero, mul_one, h3, Nat.cast_mul, div_div]
    · have h2 : u.toNat = 0 := Int.toNat_eq_zero.mpr h
      have h3 : (2 : ℚ) ^ u = 1 / ((2 ^ (-u).toNat : Nat) : ℚ) := by
        rw [Nat.cast_pow, ← zpow_natCast, Int.toNat_of_nonneg (by omega), zpow_neg]; norm_num
      rw [h2, pow_zero, mul_one, h3, Nat.cast_mul]
      field_simp
  have hdpos : 0 < den * 2 ^ u.toNat := Nat.mul_pos hd (by positivity)
  generalize hnn : num * 2 ^ (-u).toNat = n at hy
  generalize hdd : den * 2 ^ u.toNat = d at hy hdpos
  have hdivmod : d * (n / d) + n % d = n := Nat.div_add_mod n d
  have hrlt : n % d < d := Nat.mod_lt _ hdpos
  have hdq2 : (0 : ℚ) < (d : ℚ) := by exact_mod_cast hdpos
  have hyq : (num : ℚ) / (den : ℚ) / (2 : ℚ) ^ u = ((n / d : Nat) : ℚ) + ((n % d : Nat) : ℚ) / (d : ℚ) := by
    rw [← hy]
    have : (n : ℚ) = (d : ℚ) * ((n / d : Nat) : ℚ) + ((n % d : Nat) : ℚ) := by
      exact_mod_cast hdivmod.symm
    rw [this]
    field_simp
    ring
  -- the value is below 2 ^ 53 spacings
  have hy53 : (num : ℚ) / (den : ℚ) / (2 : ℚ) ^ u < (2 : ℚ) ^ (53 : Int) := by
    rw [div_lt_iff₀ hupos]
    calc (num : ℚ) / (den : ℚ) < (2 : ℚ) ^ (Double.floorLog2 num den + 1) := hhi
      _ = (2 : ℚ) ^ (Double.floorLog2 num den + 1 - u) * (2 : ℚ) ^ u := by
          rw [← zpow_add₀ two0]; congr 1; ring
      _ ≤ (2 : ℚ) ^ (53 : Int) * (2 : ℚ) ^ u := by
          apply mul_le_mul_of_nonneg_right _ (le_of_lt hupos)
          exact zpow_le_zpow_right₀ (by norm_num) hue
  generalize hq : n / d = q at *
  generalize hr : n % d = r at *
  -- the multiple that the code picks
  obtain ⟨m, hm, hnear, htie⟩ : ∃ m : Nat,
      m = (if 2 * r < d then q else if d < 2 * r then q + 1
        else if q % 2 = 0 then q else q + 1) ∧
      |(m : ℚ) - ((q : ℚ) + (r : ℚ) / (d : ℚ))| ≤ 1 / 2 ∧
      (|(m : ℚ) - ((q : ℚ) + (r : ℚ) / (d : ℚ))| = 1 / 2 → m % 2 = 0) := by
    refine ⟨_, rfl, ?_⟩
    by_cases h1 : 2 * r < d
    · have h1q : (r : ℚ) / (d : ℚ) < 1 / 2 := by
        rw [div_lt_iff₀ hdq2]
        have : ((2 * r : Nat) : ℚ) < (d : ℚ) := by exact_mod_cast h1
        push_cast at this
        linarith
      have h0 : (0 : ℚ) ≤ (r : ℚ) / (d : ℚ) := by positivity
      simp only [h1, if_true]
      have habs : |(q : ℚ) - ((q : ℚ) + (r : ℚ) / (d : ℚ))| = (r : ℚ) / (d : ℚ) := by
        rw [show (q : ℚ) - ((q : ℚ) + (r : ℚ) / (d : ℚ)) = -((r : ℚ) / (d : ℚ)) by ring,
          abs_neg, abs_of_nonneg h0]
      rw [habs]
      exact ⟨le_of_lt h1q, fun h => absurd h (ne_of_lt h1q)⟩
    · by_cases h2 : d < 2 * r
      · have h2q : 1 / 2 < (r : ℚ) / (d : ℚ) := by
          rw [lt_div_iff₀ hdq2]
          have : (d : ℚ) < ((2 * r : Nat) : ℚ) := by exact_mod_cast h2
          push_cast at this
          linarith
        have h3q : (r : ℚ) / (d : ℚ) < 1 := by
          rw [div_lt_one hdq2]; exact_mod_cast hrlt
        simp only [h1, if_false, h2, if_true]
        have habs : |((q + 1 : Nat) : ℚ) - ((q : ℚ) + (r : ℚ) / (d : ℚ))| =
            1 - (r : ℚ) / (d : ℚ) := by
          push_cast
          rw [show (q : ℚ) + 1 - ((q : ℚ) + (r : ℚ) / (d : ℚ)) = 1 - (r : ℚ) / (d : ℚ) by ring,
            abs_of_nonneg (by linarith)]
        rw [habs]
        exact ⟨by linarith, fun h => by linarith⟩
      · have heq : d = 2 * r := by omega
        have hhalf : (r : ℚ) / (d : ℚ) = 1 / 2 := by
          rw [div_eq_iff (ne_of_gt hdq2)]
          have : (d : ℚ) = ((2 * r : Nat) : ℚ) := by exact_mod_cast heq
          push_cast at this
          linarith
        simp only [h1, if_false, h2]
        by_cases h3 : q % 2 = 0
        · simp only [h3, if_true]
          rw [hhalf, show (q : ℚ) - ((q : ℚ) + 1 / 2) = -(1 / 2) by ring, abs_neg,
            abs_of_nonneg (by norm_num)]
          exact ⟨le_rfl, fun _ => by first | exact h3 | trivial⟩
        · simp only [h3, if_false]
          push_cast
          rw [hhalf, show (q : ℚ) + 1 - ((q : ℚ) + 1 / 2) = 1 / 2 by ring,
            abs_of_nonneg (by norm_num)]
          exact ⟨le_rfl, fun _ => by omega⟩
  have hround : Double.round neg num den =
      if 971 ≤ u then
        if 2 ^ (1024 - u).toNat ≤ m then Double.inf neg else Double.finite neg m u
      else Double.finite neg m u := by
    unfold Double.round
    have hnum : num ≠ 0 := by omega
    simp only [hnum, if_false, hu, hnn, hdd, hq, hr, ← hm]
  rw [hyq]
  refine ⟨m, hnear, htie, ?_⟩
  rw [hround]
  by_cases h971 : 971 ≤ u
  · simp only [h971, if_true]
    by_cases hov : 2 ^ (1024 - u).toNat ≤ m
    · right
      simp only [hov, if_true, and_true]
      have hovq : ((2 : ℚ) ^ (1024 - u).toNat) ≤ (m : ℚ) := by exact_mod_cast hov
      calc (2 : ℚ) ^ (1024 : Int) ≤ (2 : ℚ) ^ (((1024 - u).toNat : Int) + u) := by
            apply zpow_le_zpow_right₀ (by norm_num)
            have := Int.self_le_toNat (1024 - u)
            omega
        _ = (2 : ℚ) ^ (1024 - u).toNat * (2 : ℚ) ^ u := by
            rw [zpow_add₀ two0, zpow_natCast]
        _ ≤ (m : ℚ) * (2 : ℚ) ^ u := mul_le_mul_of_nonneg_right hovq (le_of_lt hupos)
    · left
      simp only [hov, if_false, and_true]
      have hlt : m < 2 ^ (1024 - u).toNat := not_le.mp hov
      rcases le_or_lt u 1024 with h1024 | h1024
      · have hltq : (m : ℚ) < (2 : ℚ) ^ (1024 - u).toNat := by exact_mod_cast hlt
        calc (m : ℚ) * (2 : ℚ) ^ u < (2 : ℚ) ^ (1024 - u).toNat * (2 : ℚ) ^ u :=
              mul_lt_mul_of_pos_right hltq hupos
          _ = (2 : ℚ) ^ (((1024 - u).toNat : Int) + u) := by
              rw [zpow_add₀ two0, zpow_natCast]
          _ = (2 : ℚ) ^ (1024 : Int) := by
              congr 1
              rw [Int.toNat_of_nonneg (by omega)]
              ring
      · have h0 : (1024 - u).toNat = 0 := Int.toNat_eq_zero.mpr (by omega)
        rw [h0, pow_zero] at hlt
        have hm0 : m = 0 := by omega
        rw [hm0]
        simp only [Nat.cast_zero, zero_mul]
        positivity
  · left
    simp only [h971, if_false, and_true]
    have hmle : (m : ℚ) ≤ (2 : ℚ) ^ (53 : Int) := by
      have hpow : (2 : ℚ) ^ (53 : Int) = 9007199254740992 := by norm_num
      have h1 : (m : ℚ) < (2 : ℚ) ^ (53 : Int) + 1 := by
        have := (abs_le.mp hnear).2
        rw [hyq] at hy53
        linarith
      rw [hpow] at h1 ⊢
      have h2 : (m : ℚ) < ((9007199254740993 : Nat) : ℚ) := by
        push_cast
        linarith
      have h3 : m < 9007199254740993 := by exact_mod_cast h2
      have h4 : m ≤ 9007199254740992 := by omega
      exact_mod_cast h4
    calc (m : ℚ) * (2 : ℚ) ^ u ≤ (2 : ℚ) ^ (53 : Int) * (2 : ℚ) ^ u :=
          mul_le_mul_of_nonneg_right hmle (le_of_lt hupos)
      _ = (2 : ℚ) ^ (53 + u) := by rw [← zpow_add₀ two0]
      _ < (2 : ℚ) ^ (1024 : Int) := by
          apply zpow_lt_zpow_right₀ (by norm_num)
          omega

/-- An unsigned integer below `2 ^ 53` is converted to the `double` of the
same value. -/
theorem Double.ofNat_toRat (n : Nat) (h : n < 2 ^ 53) : (Double.ofNat n).toRat = (n : ℚ) := by
  rcases Nat.eq_zero_or_pos n with h0 | hpos
  · subst h0
    simp [Double.ofNat, Double.round, Double.toRat, Double.signed]
  · obtain ⟨hlo, -⟩ := Double.floorLog2_spec n 1 hpos le_rfl
    obtain ⟨m, hnear, -, hcase⟩ := Double.round_spec false n 1 hpos le_rfl
    have two0 : (2 : ℚ) ≠ 0 := by norm_num
    have hnq : (n : ℚ) < (2 : ℚ) ^ (53 : Int) := by
      have : (n : ℚ) < ((2 ^ 53 : Nat) : ℚ) := by exact_mod_cast h
      have hp : (2 : ℚ) ^ (53 : Int) = ((2 ^ 53 : Nat) : ℚ) := by norm_num
      rw [hp]
      exact this
    have he : Double.floorLog2 n 1 < 53 := by
      by_contra hge
      have h53 : (2 : ℚ) ^ (53 : Int) ≤ (2 : ℚ) ^ Double.floorLog2 n 1 :=
        zpow_le_zpow_right₀ (by norm_num) (by omega)
      simp only [Nat.cast_one, div_one] at hlo
      linarith
    generalize hu : max (Double.floorLog2 n 1 - 52) (-1074) = u at *
    have hu0 : u ≤ 0 := by
      rw [← hu]
      exact max_le (by omega) (by norm_num)
    have hscaled : (n : ℚ) / ((1 : Nat) : ℚ) / (2 : ℚ) ^ u = ((n * 2 ^ (-u).toNat : Nat) : ℚ) := by
      rw [Nat.cast_one, div_one, Nat.cast_mul, Nat.cast_pow, ← zpow_natCast,
        Int.toNat_of_nonneg (by omega), zpow_neg]
      field_simp
    rw [hscaled] at hnear
    have hmeq : m = n * 2 ^ (-u).toNat := by
      have h1 := abs_le.mp hnear
      have h2 : ((m : Int) : ℚ) - (((n * 2 ^ (-u).toNat : Nat) : Int) : ℚ) < 1 := by
        push_cast
        push_cast at h1
        linarith [h1.2]
      have h3 : (-1 : ℚ) < ((m : Int) : ℚ) - (((n * 2 ^ (-u).toNat : Nat) : Int) : ℚ) := by
        push_cast
        push_cast at h1
        linarith [h1.1]
      have h4 : (m : Int) - ((n * 2 ^ (-u).toNat : Nat) : Int) < 1 := by exact_mod_cast h2
      have h5 : (-1 : Int) < (m : Int) - ((n * 2 ^ (-u).toNat : Nat) : Int) := by
        exact_mod_cast h3
      omega
    have hval : (m : ℚ) * (2 : ℚ) ^ u = (n : ℚ) := by
      rw [hmeq]
      push_cast
      rw [← zpow_natCast, Int.toNat_of_nonneg (by omega), mul_assoc, ← zpow_add₀ two0,
        neg_add_cancel, zpow_zero, mul_one]
    rcases hcase with ⟨-, hfin⟩ | ⟨hbig, -⟩
    · unfold Double.ofNat
      rw [hfin]
      simpa [Double.toRat, Double.signed] using hval
    · exfalso
      rw [hval] at hbig
      have : (2 : ℚ) ^ (53 : Int) < (2 : ℚ) ^ (1024 : Int) :=
        zpow_lt_zpow_right₀ (by norm_num) (by norm_num)
      linarith

/-- The quotient that `mul` hands to `round` for two finite `double`s is the
exact product of their magnitudes. -/
theorem Double.mul_rounds_product (m1 m2 : Nat) (e1 e2 : Int) :
    ((m1 * m2 * 2 ^ (e1 + e2).toNat : Nat) : ℚ) / ((2 ^ (-(e1 + e2)).toNat : Nat) : ℚ) =
      ((m1 : ℚ) * (2 : ℚ) ^ e1) * ((m2 : ℚ) * (2 : ℚ) ^ e2) := by
  have two0 : (2 : ℚ) ≠ 0 := by norm_num
  have hsplit : ((m1 : ℚ) * (2 : ℚ) ^ e1) * ((m2 : ℚ) * (2 : ℚ) ^ e2) =
      (m1 : ℚ) * (m2 : ℚ) * (2 : ℚ) ^ (e1 + e2) := by
    rw [zpow_add₀ two0]; ring
  rw [hsplit]
  rcases le_total 0 (e1 + e2) with h | h
  · have h2 : (-(e1 + e2)).toNat = 0 := Int.toNat_eq_zero.mpr (by omega)
    rw [h2, pow_zero, Nat.cast_one, div_one]
    push_cast
    rw [← zpow_natCast, Int.toNat_of_nonneg h]
  · have h2 : (e1 + e2).toNat = 0 := Int.toNat_eq_zero.mpr h
    rw [h2, pow_zero, mul_one]
    push_cast
    rw [← zpow_natCast, Int.toNat_of_nonneg (by omega), zpow_neg]
    field_simp

set_option maxRecDepth 8000 in
/-- Rounding at work: `29 / 100.0` and `3 / 100.0` are the binary64 values
next to `0.29` and `0.03`; `100.0 * 0.29` rounds to `28.999999999999996`
(below `29`) and `100.0 * 0.03` rounds to `3.0` exactly; `2^53 + 1` is
converted to `2^53` (tie to even). -/
theorem Double.round_examples :
    percentCap 29 = Double.finite false 5224175567749775 (-54) ∧
    percentCap 3 = Double.finite false 8646911284551352 (-58) ∧
    Double.mul (Double.ofNat 100) (percentCap 29) =
      Double.finite false 8162774324609023 (-48) ∧
    Double.gt (Double.ofNat 29) (Double.mul (Double.ofNat 100) (percentCap 29)) = true ∧
    Double.mul (Double.ofNat 100) (percentCap 3) = Double.ofNat 3 ∧
    Double.ofNat 9007199254740993 = Double.finite false 4503599627370496 1 := by
  refine ⟨?_, ?_, ?_, ?_, ?_, ?_⟩ <;> decide

/-! ## Theorems: enabling traffic during warmup -/

set_option maxRecDepth 8000 in
/-- With `maxDataSize = 100`: at `memoryUsed = 29` and the cap `29 / 100.0`
traffic is enabled, because the product `100.0 * 0.29` is rounded to a
`double` below `29`; at `memoryUsed = 3` and the cap `3 / 100.0` it is not,
because the product is rounded to `3.0`. -/
theorem maybeEnableTraffic_rounded_products :
    (maybeEnableTraffic (percentStore 29 29)).calls = [Call.warmupCompleted] ∧
    (maybeEnableTraffic (percentStore 3 3)).calls = [] := by
  constructor <;> decide

/-- C26, counterexample. In degraded mode with `memoryUsed = 100`,
`maxDataSize = 200` and the cap one half, `memoryUsed` equals
`warmupMemUsedCap * maxDataSize` (the product is exact, as real numbers and
as `double`s), and `warmedUp = 1 < 2 = warmupNumReadCap * warmedUpMeta`:
traffic is not enabled. -/
theorem maybeEnableTraffic_equality_counterexample :
    (warmingStore 100 1 4).degradedMode = true ∧
    (((warmingStore 100 1 4).stats.totalMemoryUsed : ℚ) ≥
      (warmingStore 100 1 4).stats.warmupMemUsedCap.toRat *
        ((warmingStore 100 1 4).stats.maxDataSize : ℚ)) ∧
    Double.mul (Double.ofNat (warmingStore 100 1 4).stats.maxDataSize)
        (warmingStore 100 1 4).stats.warmupMemUsedCap =
      Double.ofNat (warmingStore 100 1 4).stats.totalMemoryUsed ∧
    (maybeEnableTraffic (warmingStore 100 1 4)).calls = [] := by
  refine ⟨rfl, ?_, ?_, ?_⟩
  · simp only [warmingStore, zeroStats, Double.toRat, Double.signed]
    norm_num
  · decide
  · decide

/-- C26, amended. In degraded mode `maybeEnableTraffic` calls
`engine.warmupCompleted()` (once) if and only if `memoryUsed`, as a `double`,
is strictly greater than the `double` product `maxDataSize *
warmupMemUsedCap`, or `warmedUp` is strictly greater than the `double`
product `warmedUpMeta * warmupNumReadCap`; otherwise it does nothing, in
particular when `memoryUsed` equals the first product and the second test
fails. Outside degraded mode it does nothing. -/
theorem maybeEnableTraffic_strict (s : Store) :
    (s.degradedMode = true →
      ((maybeEnableTraffic s).calls = s.calls ++ [Call.warmupCompleted] ↔
        (Double.gt (Double.ofNat s.stats.totalMemoryUsed)
            (Double.mul (Double.ofNat s.stats.maxDataSize) s.stats.warmupMemUsedCap) = true ∨
          Double.gt (Double.ofNat s.stats.warmedUp)
            (Double.mul (Double.ofNat s.stats.warmedUpMeta) s.stats.warmupNumReadCap) =
              true)) ∧
      (¬ (Double.gt (Double.ofNat s.stats.totalMemoryUsed)
            (Double.mul (Double.ofNat s.stats.maxDataSize) s.stats.warmupMemUsedCap) = true ∨
          Double.gt (Double.ofNat s.stats.warmedUp)
            (Double.mul (Double.ofNat s.stats.warmedUpMeta) s.stats.warmupNumReadCap) =
              true) →
        maybeEnableTraffic s = s) ∧
      (Double.ofNat s.stats.totalMemoryUsed =
          Double.mul (Double.ofNat s.stats.maxDataSize) s.stats.warmupMemUsedCap →
        Double.gt (Double.ofNat s.stats.warmedUp)
            (Double.mul (Double.ofNat s.stats.warmedUpMeta) s.stats.warmupNumReadCap) =
              false →
        maybeEnableTraffic s = s)) ∧
    (s.degradedMode = false → maybeEnableTraffic s = s) := by
  have hno : ∀ (hd : s.degradedMode = true)
      (_ : ¬ (Double.gt (Double.ofNat s.stats.totalMemoryUsed)
            (Double.mul (Double.ofNat s.stats.maxDataSize) s.stats.warmupMemUsedCap) = true ∨
          Double.gt (Double.ofNat s.stats.warmedUp)
            (Double.mul (Double.ofNat s.stats.warmedUpMeta) s.stats.warmupNumReadCap) =
              true)), maybeEnableTraffic s = s := by
    intro hd h
    have hm : ¬ (Double.gt (Double.ofNat s.stats.totalMemoryUsed)
        (Double.mul (Double.ofNat s.stats.maxDataSize) s.stats.warmupMemUsedCap) = true) :=
      fun x => h (Or.inl x)
    have hw : ¬ (Double.gt (Double.ofNat s.stats.warmedUp)
        (Double.mul (Double.ofNat s.stats.warmedUpMeta) s.stats.warmupNumReadCap) = true) :=
      fun x => h (Or.inr x)
    unfold maybeEnableTraffic
    simp [hd, hm, hw]
  have hyes : ∀ (hd : s.degradedMode = true)
      (_ : Double.gt (Double.ofNat s.stats.totalMemoryUsed)
            (Double.mul (Double.ofNat s.stats.maxDataSize) s.stats.warmupMemUsedCap) = true ∨
          Double.gt (Double.ofNat s.stats.warmedUp)
            (Double.mul (Double.ofNat s.stats.warmedUpMeta) s.stats.warmupNumReadCap) =
              true), maybeEnableTraffic s = s.log Call.warmupCompleted := by
    intro hd h
    unfold maybeEnableTraffic
    by_cases hm : Double.gt (Double.ofNat s.stats.totalMemoryUsed)
        (Double.mul (Double.ofNat s.stats.maxDataSize) s.stats.warmupMemUsedCap) = true
    · simp [hd, hm]
    · have hw := h.resolve_left hm
      simp [hd, hm, hw]
  refine ⟨fun hd => ⟨⟨?_, ?_⟩, hno hd, ?_⟩, ?_⟩
  · intro hc
    by_contra hn
    rw [hno hd hn] at hc
    have hlen := congrArg List.length hc
    simp at hlen
  · intro h
    rw [hyes hd h]
    rfl
  · intro heq hw
    apply hno hd
    rintro (h | h)
    · rw [heq, Double.gt_irrefl] at h
      cases h
    · rw [hw] at h
      cases h
  · intro hd
    unfold maybeEnableTraffic
    simp [hd]

/-- Witness for C26 (amended): `memoryUsed = 101`, above the product
`200.0 * 0.5 = 100.0`. -/
theorem maybeEnableTraffic_strict_witness :
    (maybeEnableTraffic (warmingStore 101 0 0)).calls =
      (warmingStore 101 0 0).calls ++ [Call.warmupCompleted] :=
  ((maybeEnableTraffic_strict (warmingStore 101 0 0)).1 rfl).1.mpr (Or.inl (by decide))

/-! ## Theorems: the deletion callback without its vbucket -/

/-- C27. Against the claim: when the callback of deletions fires with
`value = 1` for a record whose vbucket is no longer in the map, `++vb->opsDelete`
is applied to a null `RCPtr<VBucket>`; with `value = 0` the callback only logs
the deletion to the mutation log. -/
theorem callbackDel_missing_vbucket_faults :
    (smallStore none [] false).vbuckets (recordK queue_op_del 8).vbucketId = none ∧
    (match (PersistenceCallback.mk (recordK queue_op_del 8) 90 95 0).callbackDel
        (smallStore none [] false) [] 1 with
      | Except.ok _ => none
      | Except.error f => some f) = some Fault.nullVBucket ∧
    (match (PersistenceCallback.mk (recordK queue_op_del 8) 90 95 0).callbackDel
        (smallStore none [] false) [] 0 with
      | Except.ok (s1, rq1) => some (s1.calls, rq1)
      | Except.error _ => none) = some ([Call.mlog_delItem 0 "k"], []) := by
  refine ⟨rfl, ?_, ?_⟩ <;> decide

/-! ## Theorems: the ack window of a TAP connection -/

/-- C29. For a 16-bit version `v` of a vbucket: the version that
`setVBucketState` records when it creates the vbucket, and the one that
`resetVBucket` records for a vbucket with items on a backend other than
`couchdb` and `mccouch`, differs from `v` and is not `0xFFFF`, so the loader's
test for stale items is not skipped for it: it takes an item for invalid
exactly when the item's version is another one. -/
theorem new_version_differs_and_is_checked (s : Store) (fresh : VBucket) (vbid : Nat)
    (target : vbucket_state_t) (hv : s.bucketVersions vbid < 65536) :
    (s.vbuckets vbid = none →
      (setVBucketState s fresh vbid target).bucketVersions vbid ≠ s.bucketVersions vbid ∧
      (setVBucketState s fresh vbid target).bucketVersions vbid ≠ 65535 ∧
      ∀ w, LoadStorageKVPairCallback.isInvalidItem
          ((setVBucketState s fresh vbid target).bucketVersions vbid) w = decide (w ≠
            (setVBucketState s fresh vbid target).bucketVersions vbid)) ∧
    (∀ vb, s.vbuckets vbid = some vb → vb.ht.getNumItems ≠ 0 →
      s.backend ≠ "couchdb" → s.backend ≠ "mccouch" →
      (resetVBucket s vbid).2.bucketVersions vbid ≠ s.bucketVersions vbid ∧
      (resetVBucket s vbid).2.bucketVersions vbid ≠ 65535 ∧
      ∀ w, LoadStorageKVPairCallback.isInvalidItem
          ((resetVBucket s vbid).2.bucketVersions vbid) w = decide (w ≠
            (resetVBucket s vbid).2.bucketVersions vbid)) := by
  have hnext : nextVBucketVersion (s.bucketVersions vbid) ≠ s.bucketVersions vbid ∧
      nextVBucketVersion (s.bucketVersions vbid) ≠ 65535 := by
    unfold nextVBucketVersion
    split_ifs <;> omega
  have hchk : ∀ n : Nat, n ≠ 65535 →
      ∀ w, LoadStorageKVPairCallback.isInvalidItem n w = decide (w ≠ n) := by
    intro n hn w
    simp [LoadStorageKVPairCallback.isInvalidItem, hn]
  constructor
  · intro hnone
    have hver : (setVBucketState s fresh vbid target).bucketVersions vbid =
        nextVBucketVersion (s.bucketVersions vbid) := by
      unfold setVBucketState
      cases target <;> simp [hnone, Store.setBucketVersion, Store.putVB]
    rw [hver]
    exact ⟨hnext.1, hnext.2, hchk _ hnext.2⟩
  · intro vb hsome hitems hc hm
    have hver : (resetVBucket s vbid).2.bucketVersions vbid =
        nextVBucketVersion (s.bucketVersions vbid) := by
      unfold resetVBucket
      simp [hsome, hitems, hc, hm, Store.setBucketVersion]
    rw [hver]
    exact ⟨hnext.1, hnext.2, hchk _ hnext.2⟩

/-- Witness for C29: vbucket 0 is missing and its recorded version is
`0xFFFE`; it is created at version `0`. -/
theorem new_version_differs_and_is_checked_witness :
    (setVBucketState ((smallStore none [] false).setBucketVersion 0 65534)
        (vbucketZero vbucket_state_dead (fixedHashTable WAS_CLEAN ADD_SUCCESS none false)) 0
        vbucket_state_active).bucketVersions 0 ≠
      ((smallStore none [] false).setBucketVersion 0 65534).bucketVersions 0 ∧
    (setVBucketState ((smallStore none [] false).setBucketVersion 0 65534)
        (vbucketZero vbucket_state_dead (fixedHashTable WAS_CLEAN ADD_SUCCESS none false)) 0
        vbucket_state_active).bucketVersions 0 ≠ 65535 :=
  match (new_version_differs_and_is_checked ((smallStore none [] false).setBucketVersion 0 65534)
      (vbucketZero vbucket_state_dead (fixedHashTable WAS_CLEAN ADD_SUCCESS none false)) 0
      vbucket_state_active (by decide)).1 rfl with
  | ⟨h1, h2, _⟩ => ⟨h1, h2⟩

end EpEngine
